import Mathlib

/-!
Overlord11 API workshop page: `static/script.js`

A shallow embedding of the view controller in
`src/GeminiToolset/workshop/request-1/static/script.js` and proofs about

* `updateApiDescription` and `showInput` (selection to description / visible input),
* `createParsedResponse` (API key and JSON payload to an HTML fragment),
* `callApi` (validation, request target, success and failure display).

Modelling conventions:

* A JavaScript value reachable from `response.json()` is a `JSValue`: JSON data plus
  `undefined`, which property reads produce.  Numbers are kept abstract (type `ν`); what the
  engine does with them (formatting, arithmetic, truthiness) is supplied by a `Host`.
* JavaScript strings are modelled by `String` (sequences of Unicode scalar values); strings
  holding unpaired surrogates are outside the model.
* A JavaScript exception is modelled by `Except String`, the string being the `message` of the
  thrown `Error`.  The texts of engine-generated `TypeError`s come from the `Host`.
* An object is the list of its own properties in enumeration order.  No JSON value is
  callable, and none of the property names the script reads by name exists on a built-in
  prototype, so a named read on anything but `undefined`/`null` is an own-property lookup.
* The DOM is the record `UI`: one field per element property the script reads or writes.
  For the rendered pane the field holds the markup last assigned to `innerHTML`; what the
  pane holds and shows after the browser parsed that markup is given by `innerHTMLAfter`
  and `textContentAfter`.
* The network is a function from the requested URL to the outcome of `fetch`; `callApi`
  returns the final `UI` together with the list of URLs it passed to `fetch`.
-/

namespace Overlord11

/-! ## JavaScript values -/

/-- Values the script manipulates: JSON data and `undefined`. -/
inductive JSValue (ν : Type) where
  | undefined
  | null
  | bool (b : Bool)
  | num (n : ν)
  | str (s : String)
  | arr (xs : List (JSValue ν))
  | obj (ps : List (String × JSValue ν))

/-- Engine and browser primitives the script relies on but does not define. -/
structure Host (ν : Type) where
  /-- Is the number `+0`, `-0` or `NaN` (the falsy numbers). -/
  numIsFalsy : ν → Bool
  /-- Is the number neither `NaN` nor an infinity. -/
  numIsFinite : ν → Bool
  /-- Decimal rendering, `Number.prototype.toString()` and `ToString` on numbers. -/
  numToString : ν → String
  /-- Rendering of `Number.prototype.toFixed(1)`. -/
  numToFixed1 : ν → String
  /-- Conversion `ToNumber` on strings. -/
  numOfString : String → ν
  /-- Value of a decimal numeric literal of the source text. -/
  numLit : String → ν
  /-- The number `NaN`. -/
  nan : ν
  /-- The number `+0`. -/
  zero : ν
  /-- The number `1`. -/
  one : ν
  /-- Multiplication of numbers. -/
  mul : ν → ν → ν
  /-- Division of numbers. -/
  div : ν → ν → ν
  /-- Rendering of `String.prototype.toUpperCase()`. -/
  toUpperCase : String → String
  /-- Rendering of `new Date(p).toLocaleString()` for a primitive `p`. -/
  dateLocaleString : JSValue ν → String
  /-- Message of the `TypeError` for reading property `prop` of `null` (flag `true`) or of
  `undefined` (flag `false`). -/
  errReadProperty : Bool → String → String
  /-- Message of the `TypeError` for calling a member that is not a function; the argument is
  the source text of the callee. -/
  errNotFunction : String → String
  /-- Message of the `TypeError` for an object that has no primitive value. -/
  errToPrimitive : String

namespace JSValue

variable {ν : Type}

/-- Conversion `ToBoolean`: `undefined`, `null`, `false`, `±0`, `NaN` and `""` are falsy. -/
def truthy (host : Host ν) : JSValue ν → Bool
  | undefined => false
  | null => false
  | bool b => b
  | num n => !host.numIsFalsy n
  | str s => s != ""
  | arr _ => true
  | obj _ => true

/-- Own property `k` of an object given by its property list, `undefined` when there is none. -/
def lookupOwn : List (String × JSValue ν) → String → JSValue ν
  | [], _ => undefined
  | (k, v) :: ps, p => if k = p then v else lookupOwn ps p

/-- Does the property list hold the key `k`. -/
def hasOwn : List (String × JSValue ν) → String → Bool
  | [], _ => false
  | (k, _) :: ps, p => k = p || hasOwn ps p

/-- Read `v.prop` for one of the property names the script uses: a `TypeError` on `undefined`
and `null`, the own property on an object, `undefined` on every other value. -/
def getProp (host : Host ν) (v : JSValue ν) (prop : String) : Except String (JSValue ν) :=
  match v with
  | undefined => throw (host.errReadProperty false prop)
  | null => throw (host.errReadProperty true prop)
  | obj ps => pure (lookupOwn ps prop)
  | _ => pure undefined

mutual
/-- Conversion `ToString`.  An array is joined with `","`; an object renders as
`[object Object]` unless an own (hence non-callable) `toString` shadows the inherited one, in
which case no primitive value exists and a `TypeError` is thrown. -/
def toStr (host : Host ν) : JSValue ν → Except String String
  | undefined => pure "undefined"
  | null => pure "null"
  | bool b => pure (if b then "true" else "false")
  | num n => pure (host.numToString n)
  | str s => pure s
  | arr xs => joinElems host "," xs
  | obj ps => if hasOwn ps "toString" then throw host.errToPrimitive else pure "[object Object]"
/-- Method `Array.prototype.join(sep)`: `undefined` and `null` elements render as `""`. -/
def joinElems (host : Host ν) (sep : String) : List (JSValue ν) → Except String String
  | [] => pure ""
  | x :: xs => do
    let a ← match x with
      | undefined => pure ""
      | null => pure ""
      | v => toStr host v
    let b ← joinRest host sep xs
    pure (a ++ b)
/-- The elements after the first of a `join`, each preceded by the separator. -/
def joinRest (host : Host ν) (sep : String) : List (JSValue ν) → Except String String
  | [] => pure ""
  | x :: xs => do
    let a ← match x with
      | undefined => pure ""
      | null => pure ""
      | v => toStr host v
    let b ← joinRest host sep xs
    pure (sep ++ a ++ b)
end

/-- Conversion `ToPrimitive`: arrays and objects become their string rendering. -/
def toPrimitive (host : Host ν) : JSValue ν → Except String (JSValue ν)
  | arr xs => do
    let s ← toStr host (arr xs)
    pure (str s)
  | obj ps => do
    let s ← toStr host (obj ps)
    pure (str s)
  | v => pure v

/-- Conversion `ToNumber`. -/
def toNumber (host : Host ν) (v : JSValue ν) : Except String ν := do
  let p ← toPrimitive host v
  match p with
  | undefined => pure host.nan
  | null => pure host.zero
  | bool b => pure (if b then host.one else host.zero)
  | num n => pure n
  | str s => pure (host.numOfString s)
  | _ => pure host.nan

end JSValue

/-! ## `JSON.stringify(value, null, 2)` -/

/-- Hexadecimal digit, lower case (as in `\u001f`). -/
def hexLower (n : Nat) : Char :=
  if n < 10 then Char.ofNat (48 + n) else Char.ofNat (87 + n)

/-- Escape of one character inside a JSON string (`QuoteJSONString`). -/
def jsonEscapeChar (c : Char) : List Char :=
  if c.toNat = 34 then [Char.ofNat 92, Char.ofNat 34]
  else if c.toNat = 92 then [Char.ofNat 92, Char.ofNat 92]
  else if c.toNat = 8 then [Char.ofNat 92, 'b']
  else if c.toNat = 9 then [Char.ofNat 92, 't']
  else if c.toNat = 10 then [Char.ofNat 92, 'n']
  else if c.toNat = 12 then [Char.ofNat 92, 'f']
  else if c.toNat = 13 then [Char.ofNat 92, 'r']
  else if c.toNat < 32 then
    [Char.ofNat 92, 'u', '0', '0', hexLower (c.toNat / 16), hexLower (c.toNat % 16)]
  else [c]

/-- A string as a JSON string literal. -/
def quoteJSON (s : String) : String :=
  "\"" ++ String.mk (s.data.flatMap jsonEscapeChar) ++ "\""

/-- Members of a non-empty array or object, laid out one per line at depth `indent`. -/
def jsonBlock (opening closing indent : String) (members : List String) : String :=
  match members with
  | [] => opening ++ closing
  | _ => opening ++ "\n" ++ indent ++ "  " ++
      String.intercalate (",\n" ++ indent ++ "  ") members ++ "\n" ++ indent ++ closing

namespace JSValue

variable {ν : Type}

mutual
/-- Serialisation `SerializeJSONProperty` with gap `"  "`; `none` stands for the result
`undefined` (the value has no JSON text). -/
def serializeProperty (host : Host ν) (indent : String) : JSValue ν → Option String
  | undefined => none
  | null => some "null"
  | bool b => some (if b then "true" else "false")
  | num n => some (if host.numIsFinite n then host.numToString n else "null")
  | str s => some (quoteJSON s)
  | arr xs => some (jsonBlock "[" "]" indent (serializeElements host (indent ++ "  ") xs))
  | obj ps => some (jsonBlock "\x7b" "\x7d" indent (serializeMembers host (indent ++ "  ") ps))
/-- Texts of the elements of an array; an element without JSON text is written `null`. -/
def serializeElements (host : Host ν) (indent : String) : List (JSValue ν) → List String
  | [] => []
  | x :: xs =>
    (serializeProperty host indent x).getD "null" :: serializeElements host indent xs
/-- Texts `"key": value` of the properties of an object; a property without JSON text is
left out. -/
def serializeMembers (host : Host ν) (indent : String) :
    List (String × JSValue ν) → List String
  | [] => []
  | (k, v) :: ps =>
    match serializeProperty host indent v with
    | none => serializeMembers host indent ps
    | some t => (quoteJSON k ++ ": " ++ t) :: serializeMembers host indent ps
end

/-- The call `JSON.stringify(v, null, 2)`; `none` stands for the result `undefined`. -/
def jsonStringify (host : Host ν) (v : JSValue ν) : Option String :=
  serializeProperty host "" v

/-- Interpolation of `JSON.stringify(v, null, 2)` into a template literal. -/
def jsonStringifyText (host : Host ν) (v : JSValue ν) : String :=
  match jsonStringify host v with
  | none => "undefined"
  | some t => t

end JSValue

/-! ## String methods and the query-string encoder -/

/-- Number of UTF-16 code units of a character. -/
def utf16Size (c : Char) : Nat :=
  if c.toNat < 65536 then 1 else 2

/-- Property `length` of a string: its number of UTF-16 code units. -/
def utf16Length (s : String) : Nat :=
  (s.data.map utf16Size).sum

/-- The call `s.padStart(3, '0')`. -/
def padStart3 (s : String) : String :=
  String.mk (List.replicate (3 - utf16Length s) '0') ++ s

/-- Replace the first `-` of a character list by a blank. -/
def replaceFirstHyphen : List Char → List Char
  | [] => []
  | c :: cs => if c = '-' then ' ' :: cs else c :: replaceFirstHyphen cs

/-- Hexadecimal digit, upper case (as in `%2F`). -/
def hexUpper (n : Nat) : Char :=
  if n < 10 then Char.ofNat (48 + n) else Char.ofNat (55 + n)

/-- Bytes of the UTF-8 encoding of a character. -/
def utf8Bytes (c : Char) : List Nat :=
  let n := c.toNat
  if n < 128 then [n]
  else if n < 2048 then [192 + n / 64, 128 + n % 64]
  else if n < 65536 then [224 + n / 4096, 128 + n / 64 % 64, 128 + n % 64]
  else [240 + n / 262144, 128 + n / 4096 % 64, 128 + n / 64 % 64, 128 + n % 64]

/-- Encoding of one character by the `application/x-www-form-urlencoded` serialiser. -/
def formEncodeChar (c : Char) : List Char :=
  if c = ' ' then ['+']
  else if c.isAlphanum || c = '*' || c = '-' || c = '.' || c = '_' then [c]
  else (utf8Bytes c).flatMap fun b => ['%', hexUpper (b / 16), hexUpper (b % 16)]

/-- Encoding of a name or value by the `application/x-www-form-urlencoded` serialiser. -/
def formEncode (s : String) : String :=
  String.mk (s.data.flatMap formEncodeChar)

/-- Method `URLSearchParams.prototype.toString()` on the list of appended pairs. -/
def searchParamsToString (params : List (String × String)) : String :=
  String.intercalate "&" (params.map fun p => formEncode p.1 ++ "=" ++ formEncode p.2)

/-! ## Method calls on payload values -/

namespace JSValue

variable {ν : Type}

/-- Apply a throwing callback to every element of a list, left to right. -/
def mapExcept {α β : Type} (f : α → Except String β) : List α → Except String (List β)
  | [] => pure []
  | x :: xs => do
    let y ← f x
    let ys ← mapExcept f xs
    pure (y :: ys)

/-- Receiver of a call `v.map(...)`: the elements when `v` is an array, a `TypeError`
otherwise (`callee` is the source text of `v.map`). -/
def mapReceiver (host : Host ν) (callee : String) : JSValue ν → Except String (List (JSValue ν))
  | arr xs => pure xs
  | undefined => throw (host.errReadProperty false "map")
  | null => throw (host.errReadProperty true "map")
  | _ => throw (host.errNotFunction callee)

/-- Receiver of a call of the string method `method` on `v`: the string when `v` is one, a
`TypeError` otherwise (`callee` is the source text of the member expression). -/
def stringReceiver (host : Host ν) (method callee : String) : JSValue ν → Except String String
  | str s => pure s
  | undefined => throw (host.errReadProperty false method)
  | null => throw (host.errReadProperty true method)
  | _ => throw (host.errNotFunction callee)

/-- The call `v.toString()`: like `ToString`, except that `undefined` and `null` have no
members and that an own `toString` of an object is not a function (`callee` is the source
text of `v.toString`). -/
def callToString (host : Host ν) (callee : String) : JSValue ν → Except String String
  | undefined => throw (host.errReadProperty false "toString")
  | null => throw (host.errReadProperty true "toString")
  | obj ps =>
    if hasOwn ps "toString" then throw (host.errNotFunction callee) else pure "[object Object]"
  | v => toStr host v

/-- The read `v[0]`: first element of an array, first character of a string (for a first
character outside the Basic Multilingual Plane JavaScript yields an unpaired surrogate, which
the string model does not have; the model yields the character), own property `0` of an
object. -/
def index0 (host : Host ν) : JSValue ν → Except String (JSValue ν)
  | undefined => throw (host.errReadProperty false "0")
  | null => throw (host.errReadProperty true "0")
  | arr [] => pure undefined
  | arr (x :: _) => pure x
  | str s =>
    match s.data with
    | [] => pure undefined
    | c :: _ => pure (str (String.mk [c]))
  | obj ps => pure (lookupOwn ps "0")
  | _ => pure undefined

end JSValue

/-! ## `createParsedResponse` -/

open JSValue

variable {ν : Type}

/-- Callback of `data.country.map` in the `nationalize` case. -/
def nationalizeCountry (host : Host ν) (c : JSValue ν) : Except String String := do
  let countryId ← getProp host c "country_id"
  let countryIdText ← toStr host countryId
  let probability ← getProp host c "probability"
  let p ← toNumber host probability
  pure (countryIdText ++ " (" ++ host.numToFixed1 (host.mul p (host.numLit "100")) ++ "%)")

/-- Callback of `data.stats.map` in the `pokeapi` case. -/
def pokeapiStat (host : Host ν) (s : JSValue ν) : Except String String := do
  let stat ← getProp host s "stat"
  let name ← getProp host stat "name"
  let nameText ← stringReceiver host "replace" "s.stat.name.replace" name
  let label := String.mk (replaceFirstHyphen nameText.data)
  let baseStat ← getProp host s "base_stat"
  let b ← toNumber host baseStat
  let width := host.numToString (host.div b (host.numLit "2.55"))
  let baseStatText ← toStr host baseStat
  pure ("\n                    <div class=\"stat-row\">\n                        <span class=\"stat-name\">"
    ++ label
    ++ "</span>\n                        <div class=\"stat-bar-container\">\n                            <div class=\"stat-bar\" style=\"width: "
    ++ width
    ++ "%\"></div>\n                        </div>\n                        <span class=\"stat-value\">"
    ++ baseStatText
    ++ "</span>\n                    </div>\n                ")

/-- Callback of `data.abilities.map` in the `pokeapi` case. -/
def pokeapiAbility (host : Host ν) (a : JSValue ν) : Except String (JSValue ν) := do
  let ability ← getProp host a "ability"
  getProp host ability "name"

/-- Callback of `data.types.map` in the `pokeapi` case. -/
def pokeapiType (host : Host ν) (t : JSValue ν) : Except String String := do
  let type1 ← getProp host t "type"
  let name1 ← getProp host type1 "name"
  let name1Text ← toStr host name1
  let type2 ← getProp host t "type"
  let name2 ← getProp host type2 "name"
  let name2Text ← toStr host name2
  pure ("<span class=\"type-badge type-" ++ name1Text ++ "\">" ++ name2Text ++ "</span>")

/-- The `pokeapi` case of `createParsedResponse`. -/
def renderPokeapi (host : Host ν) (data : JSValue ν) : Except String String := do
  let statsValue ← getProp host data "stats"
  let statsElems ← mapReceiver host "data.stats.map" statsValue
  let statsRows ← mapExcept (pokeapiStat host) statsElems
  let stats := String.join statsRows
  let abilitiesValue ← getProp host data "abilities"
  let abilitiesElems ← mapReceiver host "data.abilities.map" abilitiesValue
  let abilityNames ← mapExcept (pokeapiAbility host) abilitiesElems
  let abilities ← joinElems host ", " abilityNames
  let typesValue ← getProp host data "types"
  let typesElems ← mapReceiver host "data.types.map" typesValue
  let typeBadges ← mapExcept (pokeapiType host) typesElems
  let types := String.intercalate " " typeBadges
  let name ← getProp host data "name"
  let nameText ← stringReceiver host "toUpperCase" "data.name.toUpperCase" name
  let id ← getProp host data "id"
  let idText ← callToString host "data.id.toString" id
  let sprites ← getProp host data "sprites"
  let other ← getProp host sprites "other"
  let artwork ← getProp host other "official-artwork"
  let frontDefault ← getProp host artwork "front_default"
  let frontDefaultText ← toStr host frontDefault
  let altName ← getProp host data "name"
  let altText ← toStr host altName
  let height ← getProp host data "height"
  let h ← toNumber host height
  let weight ← getProp host data "weight"
  let w ← toNumber host weight
  pure ("\n                    <div class=\"pokemon-container\">\n                        <div class=\"pokemon-header\">\n                            <h3 class=\"pokemon-name\">"
    ++ host.toUpperCase nameText
    ++ "</h3>\n                            <span class=\"pokemon-id\">#"
    ++ padStart3 idText
    ++ "</span>\n                        </div>\n                        <div class=\"pokemon-body\">\n                            <div class=\"pokemon-image\">\n                                <img src=\""
    ++ frontDefaultText
    ++ "\" alt=\""
    ++ altText
    ++ "\">\n                            </div>\n                            <div class=\"pokemon-info\">\n                                <div class=\"info-row\"><strong>Types:</strong> "
    ++ types
    ++ "</div>\n                                <div class=\"info-row\"><strong>Abilities:</strong> "
    ++ abilities
    ++ "</div>\n                                <div class=\"info-row\"><strong>Height:</strong> "
    ++ host.numToString (host.div h (host.numLit "10"))
    ++ " m</div>\n                                <div class=\"info-row\"><strong>Weight:</strong> "
    ++ host.numToString (host.div w (host.numLit "10"))
    ++ " kg</div>\n                            </div>\n                        </div>\n                        <div class=\"pokemon-stats\">\n                            <h4>Base Stats</h4>\n                            "
    ++ stats
    ++ "\n                        </div>\n                    </div>\n                ")

/-- The expression `new Date(v).toLocaleString()`. -/
def dateText (host : Host ν) (v : JSValue ν) : Except String String := do
  let p ← toPrimitive host v
  pure (host.dateLocaleString p)

/-- The `spacedevs` case of `createParsedResponse`. -/
def renderSpacedevs (host : Host ν) (data : JSValue ν) : Except String String := do
  let guardName ← if truthy host data then getProp host data "name" else pure data
  if truthy host guardName then
    let name ← getProp host data "name"
    let nameText ← toStr host name
    let mission ← getProp host data "mission"
    let missionName ← match mission with
      | undefined => pure undefined
      | null => pure undefined
      | m => getProp host m "name"
    let missionText ← if truthy host missionName then toStr host missionName else pure "N/A"
    let provider ← getProp host data "launch_service_provider"
    let providerName ← getProp host provider "name"
    let providerText ← toStr host providerName
    let status ← getProp host data "status"
    let statusName ← getProp host status "name"
    let statusText ← toStr host statusName
    let windowStart ← getProp host data "window_start"
    let windowStartText ← dateText host windowStart
    let windowEnd ← getProp host data "window_end"
    let windowEndText ← dateText host windowEnd
    let image ← getProp host data "image"
    let imageText ← if truthy host image then do
        let t ← toStr host image
        pure ("<img src=\"" ++ t ++ "\" alt=\"Launch Image\" style=\"max-width: 100%;\">")
      else pure ""
    let webcast ← getProp host data "webcast_live"
    let webcastText ← if truthy host webcast then do
        let t ← toStr host webcast
        pure ("<p><a href=\"" ++ t ++ "\" target=\"_blank\">Watch Live Webcast</a></p>")
      else pure ""
    pure ("\n                        <div class=\"launch-card\">\n                            <h3>"
      ++ nameText
      ++ "</h3>\n                            <p><strong>Mission:</strong> "
      ++ missionText
      ++ "</p>\n                            <p><strong>Provider:</strong> "
      ++ providerText
      ++ "</p>\n                            <p><strong>Status:</strong> "
      ++ statusText
      ++ "</p>\n                            <p><strong>Window Start:</strong> "
      ++ windowStartText
      ++ "</p>\n                            <p><strong>Window End:</strong> "
      ++ windowEndText
      ++ "</p>\n                            "
      ++ imageText
      ++ "\n                            "
      ++ webcastText
      ++ "\n                        </div>\n                    ")
  else
    pure ("<strong>SpaceDevs API Data:</strong> <pre>" ++ jsonStringifyText host data ++ "</pre>")

/-- The `meowfacts` case of `createParsedResponse`. -/
def renderMeowfacts (host : Host ν) (data : JSValue ν) : Except String String := do
  let facts ← getProp host data "data"
  let first ← if truthy host facts then index0 host facts else pure facts
  if truthy host first then
    let facts2 ← getProp host data "data"
    let fact ← index0 host facts2
    let factText ← toStr host fact
    pure ("<strong>MeowFact:</strong> " ++ factText)
  else
    pure ("<strong>MeowFact:</strong> " ++ "No fact available.")

/-- Function `createParsedResponse(api, data)`: the HTML fragment for a payload, or the
message of the exception it throws. -/
def createParsedResponse (host : Host ν) (api : String) (data : JSValue ν) :
    Except String String :=
  if !truthy host data then pure "No data received."
  else if api = "dogs" then do
    let message ← getProp host data "message"
    let messageText ← toStr host message
    pure ("<img src=\"" ++ messageText ++ "\" alt=\"Random Dog\">")
  else if api = "catfact" then do
    let fact ← getProp host data "fact"
    let factText ← toStr host fact
    pure ("<strong>Fact:</strong> " ++ factText)
  else if api = "agify" then do
    let name ← getProp host data "name"
    let nameText ← toStr host name
    let age ← getProp host data "age"
    let ageText ← toStr host age
    pure ("<strong>Name:</strong> " ++ nameText ++ "<br><strong>Predicted Age:</strong> " ++ ageText)
  else if api = "genderize" then do
    let name ← getProp host data "name"
    let nameText ← toStr host name
    let gender ← getProp host data "gender"
    let genderText ← toStr host gender
    pure ("<strong>Name:</strong> " ++ nameText ++ "<br><strong>Predicted Gender:</strong> "
      ++ genderText)
  else if api = "nationalize" then do
    let country ← getProp host data "country"
    let elems ← mapReceiver host "data.country.map" country
    let parts ← mapExcept (nationalizeCountry host) elems
    let countries := String.intercalate ", " parts
    let name ← getProp host data "name"
    let nameText ← toStr host name
    pure ("<strong>Name:</strong> " ++ nameText
      ++ "<br><strong>Predicted Nationalities:</strong> " ++ countries)
  else if api = "pokeapi" then renderPokeapi host data
  else if api = "naas" then do
    let reason ← getProp host data "reason"
    let reasonText ← toStr host reason
    pure ("<strong>Sample Error:</strong> " ++ reasonText)
  else if api = "advice" then do
    let slip ← getProp host data "slip"
    let advice ← getProp host slip "advice"
    let adviceText ← toStr host advice
    pure ("<strong>Advice:</strong> " ++ adviceText)
  else if api = "kanye" then do
    let quote ← getProp host data "quote"
    let quoteText ← toStr host quote
    pure ("<strong>Kanye Quote:</strong> \"" ++ quoteText ++ "\"")
  else if api = "spacedevs" then renderSpacedevs host data
  else if api = "cataas" then do
    let url ← getProp host data "url"
    let urlText ← toStr host url
    pure ("<img src=\"" ++ urlText ++ "\" alt=\"Cat Image\" style=\"max-width: 100%;\">")
  else if api = "meowfacts" then renderMeowfacts host data
  else if api = "waifu" then do
    let url ← getProp host data "url"
    let urlText ← toStr host url
    pure ("<img src=\"" ++ urlText ++ "\" alt=\"Waifu Image\" style=\"max-width: 100%;\">")
  else pure ("<pre>" ++ jsonStringifyText host data ++ "</pre>")

/-! ## The page: catalog, DOM record and network -/

/-- One entry of the catalog parsed from the `api-data-json` element. -/
structure ApiDescriptor where
  /-- Key of the API, the `value` of its option in the select box. -/
  value : String
  /-- Human-readable description. -/
  description : String

/-- The element properties of the object `UI` that the script reads or writes. -/
structure UI where
  /-- Property `UI.apiSelect.value`. -/
  apiSelect : String
  /-- Property `UI.nameInput.style.display`. -/
  nameInput : String
  /-- Property `UI.nameParam.value`. -/
  nameParam : String
  /-- Property `UI.pokemonInput.style.display`. -/
  pokemonInput : String
  /-- Property `UI.pokemonParam.value`. -/
  pokemonParam : String
  /-- The markup last assigned to `UI.parsedDisplay.innerHTML` (the rendered pane); the pane
  then holds `innerHTMLAfter` of it. -/
  parsedDisplay : String
  /-- Property `UI.rawCallDisplay.textContent` (the raw-call pane). -/
  rawCallDisplay : String
  /-- Property `UI.rawResponseDisplay.textContent` (the raw-response pane). -/
  rawResponseDisplay : String
  /-- Property `UI.apiDescriptionDiv.textContent`. -/
  apiDescriptionDiv : String

/-- Outcome of `response.json()`: rejection with a message, or the parsed value. -/
inductive Body (ν : Type) where
  | invalid (message : String)
  | json (value : JSValue ν)

/-- A response `fetch` resolved with. -/
structure Response (ν : Type) where
  /-- Property `response.status`. -/
  status : Nat
  /-- What `response.json()` settles to. -/
  body : Body ν

/-- Property `response.ok`: the status is in the range 200 to 299. -/
def Response.ok (response : Response ν) : Bool :=
  decide (200 ≤ response.status) && decide (response.status ≤ 299)

/-- Method `response.json()`. -/
def Response.json (response : Response ν) : Except String (JSValue ν) :=
  match response.body with
  | Body.invalid message => throw message
  | Body.json value => pure value

/-- Outcome of `fetch(url)`: rejection with an error message, or a response. -/
inductive FetchResult (ν : Type) where
  | rejected (message : String)
  | resolved (response : Response ν)

/-! ## `updateApiDescription` and `showInput` -/

/-- Function `updateApiDescription`. -/
def updateApiDescription (apiData : List ApiDescriptor) (ui : UI) : UI :=
  let selectedApi := ui.apiSelect
  let description :=
    match apiData.find? (fun api => api.value == selectedApi) with
    | some api => if api.description != "" then api.description else "No description available."
    | none => "No description available."
  { ui with apiDescriptionDiv := description }

/-- The test `['agify', 'genderize', 'nationalize'].includes(selectedApi)`. -/
def isNameKeyed (selectedApi : String) : Bool :=
  ["agify", "genderize", "nationalize"].contains selectedApi

/-- Function `showInput`. -/
def showInput (apiData : List ApiDescriptor) (ui : UI) : UI :=
  let selectedApi := ui.apiSelect
  let ui1 := { ui with nameInput := "none" }
  let ui2 := { ui1 with pokemonInput := "none" }
  let ui3 :=
    if isNameKeyed selectedApi then { ui2 with nameInput := "block" }
    else if selectedApi = "pokeapi" then { ui2 with pokemonInput := "block" }
    else ui2
  updateApiDescription apiData ui3

/-! ## `callApi` -/

/-- The argument of `new Error(...)` in the branch `!response.ok`, or the message of an
exception thrown while computing it. -/
def errorArgument (host : Host ν) (response : Response ν) : Except String String := do
  let errorData ← response.json
  let error ← getProp host errorData "error"
  if truthy host error then toStr host error
  else pure ("HTTP error! status: " ++ toString response.status)

/-- The `try` block of `callApi` from the point where `fetch(fullUrl)` has settled with
`fetched`: the `UI` it leaves on normal completion, or the message of the exception together
with the `UI` at the moment of the throw. -/
def tryBlock (host : Host ν) (selectedApi : String) (fetched : FetchResult ν) (ui : UI) :
    Except (String × UI) UI :=
  match fetched with
  | FetchResult.rejected message => Except.error (message, ui)
  | FetchResult.resolved response =>
    if !response.ok then
      match errorArgument host response with
      | Except.ok message => Except.error (message, ui)
      | Except.error message => Except.error (message, ui)
    else
      match response.json with
      | Except.error message => Except.error (message, ui)
      | Except.ok result =>
        match (do let requestUrl ← getProp host result "request_url"; toStr host requestUrl) with
        | Except.error message => Except.error (message, ui)
        | Except.ok requestUrlText =>
          let curlCommand := "curl -X GET \"" ++ requestUrlText ++ "\""
          let ui1 := { ui with rawCallDisplay := "```bash\n" ++ curlCommand ++ "\n```" }
          match getProp host result "data" with
          | Except.error message => Except.error (message, ui1)
          | Except.ok data =>
            let ui2 := { ui1 with rawResponseDisplay := (jsonStringify host data).getD "" }
            match createParsedResponse host selectedApi data with
            | Except.error message => Except.error (message, ui2)
            | Except.ok html => Except.ok { ui2 with parsedDisplay := html }

/-- The expression ``queryString ? `${url}?${queryString}` : url``. -/
def withQuery (url queryString : String) : String :=
  if queryString != "" then url ++ "?" ++ queryString else url

/-- Lines 153 to 180 of `callApi`: build the target from the collected parameters, fetch it,
run the `try` block and, on an exception, the `catch` block.  The write to
`UI.parsedDisplay.innerHTML` is recorded as the markup assigned, message unescaped as in the
source; `innerHTMLAfter` gives what the pane holds once the browser has parsed it. -/
def sendRequest (host : Host ν) (fetch : String → FetchResult ν) (selectedApi url : String)
    (params : List (String × String)) (ui : UI) : UI × List String :=
  let queryString := searchParamsToString params
  let fullUrl := withQuery url queryString
  match tryBlock host selectedApi (fetch fullUrl) ui with
  | Except.ok done => (done, [fullUrl])
  | Except.error (message, thrown) =>
    let errorMessage := "Error: " ++ message
    let failedUrl := withQuery url queryString
    ({ thrown with
        parsedDisplay := "<span class=\"error\">" ++ errorMessage ++ "</span>"
        rawCallDisplay := "```bash\ncurl -X GET \"" ++ failedUrl ++ "\"\n```"
        rawResponseDisplay := errorMessage }, [fullUrl])

/-- Lines 132 to 134 of `callApi`: clear the previous results and show the placeholder. -/
def showLoading (ui : UI) : UI :=
  { ui with
    parsedDisplay := "Loading..."
    rawCallDisplay := "Loading..."
    rawResponseDisplay := "Loading..." }

/-- Function `callApi`, one invocation run to completion: the final `UI` and the URLs passed
to `fetch`, in order. -/
def callApi (host : Host ν) (fetch : String → FetchResult ν) (ui : UI) : UI × List String :=
  let selectedApi := ui.apiSelect
  let url := "/api/" ++ selectedApi
  let ui1 := showLoading ui
  if isNameKeyed selectedApi then
    let name := ui1.nameParam
    if name = "" then
      ({ ui1 with parsedDisplay := "<span class=\"error\">Please enter a name.</span>" }, [])
    else sendRequest host fetch selectedApi url [("name", name)] ui1
  else if selectedApi = "pokeapi" then
    let pokemon := ui1.pokemonParam
    if pokemon = "" then
      ({ ui1 with
          parsedDisplay := "<span class=\"error\">Please enter a Pokémon name or ID.</span>" },
        [])
    else sendRequest host fetch selectedApi url [("pokemon", pokemon)] ui1
  else sendRequest host fetch selectedApi url [] ui1

/-! ## The `innerHTML` setter

The script writes markup to `UI.parsedDisplay.innerHTML`; the browser parses the assigned
string as an HTML fragment, and reading the property back serialises the resulting tree.
The model below follows the HTML Standard (newline normalisation, tokenizer, tree
construction in the `in body` insertion mode, fragment serialisation) on the markup the
`catch` block can produce around an arbitrary message: text, a `<` that opens no tag, an `&`
that opens no character reference, a `<!doctype`, and `span` tags with double-quoted
attributes.  On every other construct (comments, other elements, character references) it
answers `none`: such markup is outside the model.  The element `#parsed-display` is taken to
be an ordinary container such as `div`. -/

/-- Nodes of the parsed fragment. -/
inductive HtmlNode where
  | text (data : String)
  | span (attrs : List (String × String)) (children : List HtmlNode)

/-- The tree under construction: the children of the pane so far and the open `span`
elements, innermost first, each with its attributes and its children so far.  Child lists
are kept latest first. -/
structure HtmlBuilder where
  /-- Children of the pane, latest first. -/
  paneChildren : List HtmlNode
  /-- Open `span` elements, innermost first. -/
  openSpans : List (List (String × String) × List HtmlNode)

/-- States of the tokenizer. -/
inductive TokenizerState where
  | data
  | characterReference
  | tagOpen
  | markupDeclarationOpen (matched : Nat)
  | doctype
  | endTagOpen
  | tagName (isEnd : Bool) (name : String)
  | beforeAttributeName (attrs : List (String × String))
  | attributeName (attrs : List (String × String)) (attr : String)
  | beforeAttributeValue (attrs : List (String × String)) (attr : String)
  | attributeValue (attrs : List (String × String)) (attr value : String)
  | afterAttributeValue (attrs : List (String × String))

/-- Newline normalisation of the input stream: `CR LF` and a lone `CR` become `LF`.  The flag
tells that the previous character was a `CR`. -/
def normalizeNewlines (afterCR : Bool) : List Char → List Char
  | [] => []
  | c :: rest =>
    if c = Char.ofNat 13 then Char.ofNat 10 :: normalizeNewlines true rest
    else if c = Char.ofNat 10 && afterCR then normalizeNewlines false rest
    else c :: normalizeNewlines false rest

/-- Append a character to a child list (latest first): it extends a text node that comes
last, and starts a new text node otherwise. -/
def appendCharacter (children : List HtmlNode) (c : Char) : List HtmlNode :=
  match children with
  | HtmlNode.text t :: rest => HtmlNode.text (t.push c) :: rest
  | other => HtmlNode.text (String.singleton c) :: other

/-- Tree construction for a character token: `U+0000` is ignored, any other character is
inserted at the current node. -/
def insertCharacter (b : HtmlBuilder) (c : Char) : HtmlBuilder :=
  if c = Char.ofNat 0 then b
  else
    match b.openSpans with
    | [] => { b with paneChildren := appendCharacter b.paneChildren c }
    | (attrs, children) :: rest =>
      { b with openSpans := (attrs, appendCharacter children c) :: rest }

/-- Tree construction for a start tag `span`: a new element becomes the current node. -/
def openSpan (b : HtmlBuilder) (attrs : List (String × String)) : HtmlBuilder :=
  { b with openSpans := (attrs, []) :: b.openSpans }

/-- Tree construction for an end tag `span`: the innermost open `span` is closed and added to
its parent; with no `span` open the tag is ignored. -/
def closeSpan (b : HtmlBuilder) : HtmlBuilder :=
  match b.openSpans with
  | [] => b
  | (attrs, children) :: [] =>
    { paneChildren := HtmlNode.span attrs children.reverse :: b.paneChildren
      openSpans := [] }
  | (attrs, children) :: (parentAttrs, parentChildren) :: rest =>
    { b with
      openSpans := (parentAttrs, HtmlNode.span attrs children.reverse :: parentChildren) :: rest }

/-- A character met in the data state. -/
def dataCharacter (b : HtmlBuilder) (c : Char) : TokenizerState × HtmlBuilder :=
  if c = '<' then (TokenizerState.tagOpen, b)
  else if c = '&' then (TokenizerState.characterReference, b)
  else (TokenizerState.data, insertCharacter b c)

/-- One step of the tokenizer with the tree construction of the token it emits; `none` when
the character leads outside the modelled markup. -/
def tokenizerStep (state : TokenizerState) (b : HtmlBuilder) (c : Char) :
    Option (TokenizerState × HtmlBuilder) :=
  match state with
  | TokenizerState.data => some (dataCharacter b c)
  | TokenizerState.characterReference =>
    if c.isAlphanum || c = '#' then none
    else some (dataCharacter (insertCharacter b '&') c)
  | TokenizerState.tagOpen =>
    if c = '!' then some (TokenizerState.markupDeclarationOpen 0, b)
    else if c = '/' then some (TokenizerState.endTagOpen, b)
    else if c.isLower then some (TokenizerState.tagName false (String.singleton c), b)
    else if c.isUpper || c = '?' then none
    else some (dataCharacter (insertCharacter b '<') c)
  | TokenizerState.markupDeclarationOpen matched =>
    match "doctype".data.get? matched with
    | none => none
    | some expected =>
      if c.toLower = expected then
        if matched + 1 = 7 then some (TokenizerState.doctype, b)
        else some (TokenizerState.markupDeclarationOpen (matched + 1), b)
      else none
  | TokenizerState.doctype =>
    if c = '>' then some (TokenizerState.data, b) else some (TokenizerState.doctype, b)
  | TokenizerState.endTagOpen =>
    if c.isLower then some (TokenizerState.tagName true (String.singleton c), b) else none
  | TokenizerState.tagName isEnd name =>
    if c.isLower then some (TokenizerState.tagName isEnd (name.push c), b)
    else if name != "span" then none
    else if c = '>' then some (TokenizerState.data, if isEnd then closeSpan b else openSpan b [])
    else if c = ' ' && !isEnd then some (TokenizerState.beforeAttributeName [], b)
    else none
  | TokenizerState.beforeAttributeName attrs =>
    if c = ' ' then some (TokenizerState.beforeAttributeName attrs, b)
    else if c = '>' then some (TokenizerState.data, openSpan b attrs)
    else if c.isLower then some (TokenizerState.attributeName attrs (String.singleton c), b)
    else none
  | TokenizerState.attributeName attrs attr =>
    if c.isLower || c = '-' then some (TokenizerState.attributeName attrs (attr.push c), b)
    else if c = '=' && !(attrs.map Prod.fst).contains attr then
      some (TokenizerState.beforeAttributeValue attrs attr, b)
    else none
  | TokenizerState.beforeAttributeValue attrs attr =>
    if c = Char.ofNat 34 then some (TokenizerState.attributeValue attrs attr "", b) else none
  | TokenizerState.attributeValue attrs attr value =>
    if c = Char.ofNat 34 then some (TokenizerState.afterAttributeValue (attrs ++ [(attr, value)]), b)
    else if c.isAlphanum || c = ' ' || c = '-' || c = '_' then
      some (TokenizerState.attributeValue attrs attr (value.push c), b)
    else none
  | TokenizerState.afterAttributeValue attrs =>
    if c = ' ' then some (TokenizerState.beforeAttributeName attrs, b)
    else if c = '>' then some (TokenizerState.data, openSpan b attrs)
    else none

/-- Run the tokenizer over the input. -/
def runTokenizer (state : TokenizerState) (b : HtmlBuilder) :
    List Char → Option (TokenizerState × HtmlBuilder)
  | [] => some (state, b)
  | c :: rest =>
    match tokenizerStep state b c with
    | none => none
    | some next => runTokenizer next.1 next.2 rest

/-- End of input: a pending `&` or `<` is text, a pending `<!doctype` is dropped, input that
ends inside a tag is outside the model. -/
def endOfInput (state : TokenizerState) (b : HtmlBuilder) : Option HtmlBuilder :=
  match state with
  | TokenizerState.data => some b
  | TokenizerState.characterReference => some (insertCharacter b '&')
  | TokenizerState.tagOpen => some (insertCharacter b '<')
  | TokenizerState.doctype => some b
  | _ => none

/-- Close the elements still open at the end of input; the result is the list of children of
the pane, in document order. -/
def closeAll (fuel : Nat) (b : HtmlBuilder) : List HtmlNode :=
  match fuel with
  | 0 => b.paneChildren.reverse
  | fuel + 1 => closeAll fuel (closeSpan b)

/-- The children the pane has after the assignment `pane.innerHTML = markup`. -/
def parseFragment (markup : String) : Option (List HtmlNode) :=
  match runTokenizer TokenizerState.data ⟨[], []⟩ (normalizeNewlines false markup.data) with
  | none => none
  | some (state, b) =>
    match endOfInput state b with
    | none => none
    | some done => some (closeAll done.openSpans.length done)

/-- Escape of one character of a text node in the fragment serialisation. -/
def escapeTextCharacter (c : Char) : List Char :=
  if c = '&' then "&amp;".data
  else if c = Char.ofNat 160 then "&nbsp;".data
  else if c = '<' then "&lt;".data
  else if c = '>' then "&gt;".data
  else [c]

/-- Escape of the data of a text node in the fragment serialisation. -/
def escapeText (s : String) : String :=
  String.mk (s.data.flatMap escapeTextCharacter)

/-- Serialisation of the attributes of an element (the values the model admits need no
escape). -/
def serializeAttributes : List (String × String) → String
  | [] => ""
  | (name, value) :: rest => " " ++ name ++ "=\"" ++ value ++ "\"" ++ serializeAttributes rest

mutual
/-- Fragment serialisation of a node. -/
def serializeNode : HtmlNode → String
  | HtmlNode.text data => escapeText data
  | HtmlNode.span attrs children =>
    "<span" ++ serializeAttributes attrs ++ ">" ++ serializeNodes children ++ "</span>"
/-- Fragment serialisation of a list of nodes. -/
def serializeNodes : List HtmlNode → String
  | [] => ""
  | node :: rest => serializeNode node ++ serializeNodes rest
end

mutual
/-- Property `textContent` of a node. -/
def nodeText : HtmlNode → String
  | HtmlNode.text data => data
  | HtmlNode.span _ children => nodesText children
/-- Concatenated `textContent` of a list of nodes. -/
def nodesText : List HtmlNode → String
  | [] => ""
  | node :: rest => nodeText node ++ nodesText rest
end

/-- What reading `pane.innerHTML` returns after the assignment `pane.innerHTML = markup`. -/
def innerHTMLAfter (markup : String) : Option String :=
  (parseFragment markup).map serializeNodes

/-- What reading `pane.textContent` returns after the assignment `pane.innerHTML = markup`:
the text the pane shows. -/
def textContentAfter (markup : String) : Option String :=
  (parseFragment markup).map nodesText

/-- A character that the parser keeps as it is and the serialiser writes as it is: none of
`<`, `>`, `&`, `U+0000`, `CR` and `U+00A0`. -/
def plainCharacter (c : Char) : Prop :=
  c ≠ '<' ∧ c ≠ '>' ∧ c ≠ '&' ∧ c ≠ Char.ofNat 0 ∧ c ≠ Char.ofNat 13 ∧ c ≠ Char.ofNat 160

/-! ## Concrete inputs

A host over the integers, with the `TypeError` wording of V8, to run the model on concrete
payloads.  Integer arithmetic stands in for floating point here; no statement below depends
on it. -/

/-- A host whose numbers are the integers. -/
def sampleHost : Host Int where
  numIsFalsy := fun n => n == 0
  numIsFinite := fun _ => true
  numToString := fun n => toString n
  numToFixed1 := fun n => toString n ++ ".0"
  numOfString := fun s => s.toInt?.getD 0
  numLit := fun s => s.toInt?.getD 0
  nan := 0
  zero := 0
  one := 1
  mul := fun a b => a * b
  div := fun a b => a / b
  toUpperCase := String.toUpper
  dateLocaleString := fun _ => "Invalid Date"
  errReadProperty := fun isNull prop =>
    "Cannot read properties of " ++ (if isNull then "null" else "undefined")
      ++ " (reading \x27" ++ prop ++ "\x27)"
  errNotFunction := fun callee => callee ++ " is not a function"
  errToPrimitive := "Cannot convert object to primitive value"

/-- A page state: selection `selected`, the two parameter fields, and stale pane contents
of an earlier request. -/
def samplePage (selected name pokemon : String) : UI where
  apiSelect := selected
  nameInput := "none"
  nameParam := name
  pokemonInput := "none"
  pokemonParam := pokemon
  parsedDisplay := "<strong>Fact:</strong> old"
  rawCallDisplay := "old call"
  rawResponseDisplay := "old response"
  apiDescriptionDiv := ""

/-- A network that answers every request with the given response. -/
def answerWith (response : Response Int) : String → FetchResult Int :=
  fun _ => FetchResult.resolved response

/-- The keys `createParsedResponse` has a `case` for. -/
def recognisedKeys : List String :=
  ["dogs", "catfact", "agify", "genderize", "nationalize", "pokeapi", "naas", "advice",
    "kanye", "spacedevs", "cataas", "meowfacts", "waifu"]

/-! ## Auxiliary facts -/

theorem isNameKeyed_iff (s : String) :
    isNameKeyed s = true ↔ s = "agify" ∨ s = "genderize" ∨ s = "nationalize" := by
  simp [isNameKeyed]

theorem isNameKeyed_pokeapi : isNameKeyed "pokeapi" = false := by
  decide

/-! ## `showInput` -/

/-- Claim C1: after `showInput` the name input is shown (`block`) exactly for the selections
`agify`, `genderize`, `nationalize`, the Pokémon input exactly for `pokeapi`, every input not
shown is hidden (`none`), and the two inputs are never shown together, whatever the state
before the call. -/
theorem showInput_reveals_exactly (apiData : List ApiDescriptor) (ui : UI) :
    ((showInput apiData ui).nameInput = "block" ↔
        (ui.apiSelect = "agify" ∨ ui.apiSelect = "genderize" ∨ ui.apiSelect = "nationalize")) ∧
    ((showInput apiData ui).pokemonInput = "block" ↔ ui.apiSelect = "pokeapi") ∧
    ((showInput apiData ui).nameInput = "block" ∨ (showInput apiData ui).nameInput = "none") ∧
    ((showInput apiData ui).pokemonInput = "block" ∨
        (showInput apiData ui).pokemonInput = "none") ∧
    ¬ ((showInput apiData ui).nameInput = "block" ∧
        (showInput apiData ui).pokemonInput = "block") := by
  rw [← isNameKeyed_iff]
  by_cases hn : isNameKeyed ui.apiSelect = true
  · have hp : ui.apiSelect ≠ "pokeapi" := by
      intro h
      rw [h] at hn
      revert hn
      decide
    simp [showInput, updateApiDescription, hn, hp]
  · by_cases hp : ui.apiSelect = "pokeapi"
    · simp [showInput, updateApiDescription, hp, isNameKeyed_pokeapi]
    · simp [showInput, updateApiDescription, hn, hp]

/-! ## `updateApiDescription` -/

theorem find_first_match (pre post : List ApiDescriptor) (d : ApiDescriptor) (selected : String)
    (hpre : ∀ x ∈ pre, x.value ≠ selected) (hd : d.value = selected) :
    (pre ++ d :: post).find? (fun api => api.value == selected) = some d := by
  induction pre with
  | nil => simp [List.find?, hd]
  | cons x xs ih =>
    have hx : (x.value == selected) = false := by
      simpa using hpre x (List.mem_cons_self x xs)
    have hxs : ∀ y ∈ xs, y.value ≠ selected := fun y hy => hpre y (List.mem_cons_of_mem x hy)
    simp [List.find?, hx, ih hxs]

theorem find_no_match (apiData : List ApiDescriptor) (selected : String)
    (hnone : ∀ x ∈ apiData, x.value ≠ selected) :
    apiData.find? (fun api => api.value == selected) = none := by
  induction apiData with
  | nil => rfl
  | cons x xs ih =>
    have hx : (x.value == selected) = false := by
      simpa using hnone x (List.mem_cons_self x xs)
    have hxs : ∀ y ∈ xs, y.value ≠ selected := fun y hy => hnone y (List.mem_cons_of_mem x hy)
    simp [List.find?, hx, ih hxs]

/-- Claim C8, as the code has it: `updateApiDescription` writes the description of the first
catalog descriptor whose `value` equals the selection when there is one and its description
is not empty; it writes `No description available.` when that description is empty and when
no descriptor matches. -/
theorem updateApiDescription_writes (apiData : List ApiDescriptor) (ui : UI) :
    (∀ pre d post, apiData = pre ++ d :: post → (∀ x ∈ pre, x.value ≠ ui.apiSelect) →
      d.value = ui.apiSelect →
      (d.description ≠ "" →
        (updateApiDescription apiData ui).apiDescriptionDiv = d.description) ∧
      (d.description = "" →
        (updateApiDescription apiData ui).apiDescriptionDiv = "No description available.")) ∧
    ((∀ x ∈ apiData, x.value ≠ ui.apiSelect) →
      (updateApiDescription apiData ui).apiDescriptionDiv = "No description available.") := by
  refine ⟨?_, ?_⟩
  · intro pre d post hsplit hpre hd
    have hfind := find_first_match pre post d ui.apiSelect hpre hd
    rw [← hsplit] at hfind
    constructor
    · intro hne
      simp [updateApiDescription, hfind, hne]
    · intro he
      simp [updateApiDescription, hfind, he]
  · intro hnone
    simp [updateApiDescription, find_no_match apiData ui.apiSelect hnone]

/-- Claim C8 at a concrete catalog: the selection `catfact` is the second of two matching
entries behind a non-matching one, and an unknown selection gets the fallback text. -/
theorem updateApiDescription_writes_witness :
    (updateApiDescription
        [⟨"dogs", "Random dog pictures"⟩, ⟨"catfact", "Cat facts"⟩, ⟨"catfact", "Again"⟩]
        (samplePage "catfact" "" "")).apiDescriptionDiv = "Cat facts" ∧
    (updateApiDescription [⟨"dogs", "Random dog pictures"⟩]
        (samplePage "weather" "" "")).apiDescriptionDiv = "No description available." :=
  ⟨((updateApiDescription_writes
        [⟨"dogs", "Random dog pictures"⟩, ⟨"catfact", "Cat facts"⟩, ⟨"catfact", "Again"⟩]
        (samplePage "catfact" "" "")).1
      [⟨"dogs", "Random dog pictures"⟩] ⟨"catfact", "Cat facts"⟩ [⟨"catfact", "Again"⟩]
      rfl (by decide) rfl).1 (by decide),
   (updateApiDescription_writes [⟨"dogs", "Random dog pictures"⟩]
        (samplePage "weather" "" "")).2 (by decide)⟩

/-- Claim C8 as stated fails: a descriptor matches the selection `dogs` and its description
is the empty string, yet the description area receives the fallback text, not that
description. -/
theorem updateApiDescription_empty_description :
    (∃ d ∈ [(⟨"dogs", ""⟩ : ApiDescriptor)], d.value = (samplePage "dogs" "" "").apiSelect) ∧
    (updateApiDescription [⟨"dogs", ""⟩] (samplePage "dogs" "" "")).apiDescriptionDiv
      = "No description available." ∧
    (updateApiDescription [⟨"dogs", ""⟩] (samplePage "dogs" "" "")).apiDescriptionDiv
      ≠ (⟨"dogs", ""⟩ : ApiDescriptor).description := by
  refine ⟨⟨⟨"dogs", ""⟩, by simp, rfl⟩, by decide, by decide⟩

/-! ## `createParsedResponse` -/

/-- Claim C4, as the code has it: for every key, recognised or not, an absent payload
(`null` or `undefined`) is answered with the fixed text `No data received.`; no JSON dump is
produced. -/
theorem createParsedResponse_absent_payload (host : Host ν) (api : String) :
    createParsedResponse host api JSValue.null = Except.ok "No data received." ∧
    createParsedResponse host api JSValue.undefined = Except.ok "No data received." := by
  constructor <;> simp [createParsedResponse, truthy] <;> rfl

/-- Claim C4 as stated fails: for the payload `null` the result is `No data received.`, for a
recognised key (`dogs`) and for an unrecognised one (`weather`) alike, not the dump
`<pre>null</pre>`. -/
theorem createParsedResponse_null_not_dumped :
    JSValue.jsonStringify sampleHost JSValue.null = some "null" ∧
    createParsedResponse sampleHost "dogs" JSValue.null = Except.ok "No data received." ∧
    createParsedResponse sampleHost "weather" JSValue.null = Except.ok "No data received." ∧
    "No data received." ≠ "<pre>" ++ "null" ++ "</pre>" := by
  refine ⟨rfl, rfl, rfl, by decide⟩

theorem serializeProperty_isSome (host : Host ν) (indent : String) (data : JSValue ν)
    (hdata : data ≠ JSValue.undefined) :
    ∃ json, serializeProperty host indent data = some json := by
  cases data with
  | undefined => exact absurd rfl hdata
  | null => exact ⟨_, by rw [serializeProperty]⟩
  | bool b => exact ⟨_, by rw [serializeProperty]⟩
  | num n => exact ⟨_, by rw [serializeProperty]⟩
  | str s => exact ⟨_, by rw [serializeProperty]⟩
  | arr xs => exact ⟨_, by rw [serializeProperty]⟩
  | obj ps => exact ⟨_, by rw [serializeProperty]⟩

theorem createParsedResponse_falsy (host : Host ν) (api : String) (data : JSValue ν)
    (hdata : truthy host data = false) :
    createParsedResponse host api data = Except.ok "No data received." := by
  simp [createParsedResponse, hdata]
  rfl

theorem createParsedResponse_default (host : Host ν) (api : String) (data : JSValue ν)
    (hkey : api ∉ recognisedKeys) (hdata : truthy host data = true) :
    createParsedResponse host api data
      = Except.ok ("<pre>" ++ jsonStringifyText host data ++ "</pre>") := by
  simp [recognisedKeys] at hkey
  obtain ⟨h1, h2, h3, h4, h5, h6, h7, h8, h9, h10, h11, h12, h13⟩ := hkey
  simp [createParsedResponse, hdata, h1, h2, h3, h4, h5, h6, h7, h8, h9, h10, h11, h12, h13]
  rfl

/-- Claim C3, as the code has it: for a key outside the recognised set and a truthy payload
(anything but `null`, `undefined`, `false`, a zero or `NaN` number and the empty string),
`createParsedResponse` returns `<pre>`, the 2-space-indented JSON text of the payload,
`</pre>`; for a falsy payload it returns `No data received.`.  The result is a function of
key and payload, so equal calls give equal strings. -/
theorem createParsedResponse_unrecognised (host : Host ν) (api : String) (data : JSValue ν)
    (hkey : api ∉ recognisedKeys) :
    (truthy host data = true →
      ∃ json, jsonStringify host data = some json ∧
        createParsedResponse host api data = Except.ok ("<pre>" ++ json ++ "</pre>")) ∧
    (truthy host data = false →
      createParsedResponse host api data = Except.ok "No data received.") := by
  refine ⟨?_, createParsedResponse_falsy host api data⟩
  intro hdata
  have hdef : data ≠ JSValue.undefined := by
    intro h
    rw [h] at hdata
    simp [truthy] at hdata
  obtain ⟨json, hjson⟩ := serializeProperty_isSome host "" data hdef
  refine ⟨json, hjson, ?_⟩
  rw [createParsedResponse_default host api data hkey hdata]
  simp [jsonStringifyText, jsonStringify, hjson]

/-- Claim C3 at a concrete input: the unrecognised key `weather` with an object payload. -/
theorem createParsedResponse_unrecognised_witness :
    "weather" ∉ recognisedKeys ∧
    createParsedResponse sampleHost "weather"
        (JSValue.obj [("temp", JSValue.num 21), ("sky", JSValue.arr [JSValue.str "clear"])])
      = Except.ok "<pre>\x7b\n  \"temp\": 21,\n  \"sky\": [\n    \"clear\"\n  ]\n\x7d</pre>" := by
  refine ⟨by decide, ?_⟩
  obtain ⟨json, hjson, hres⟩ := (createParsedResponse_unrecognised sampleHost "weather"
    (JSValue.obj [("temp", JSValue.num 21), ("sky", JSValue.arr [JSValue.str "clear"])])
    (by decide)).1 rfl
  rw [hres]
  have hj : json = "\x7b\n  \"temp\": 21,\n  \"sky\": [\n    \"clear\"\n  ]\n\x7d" := by
    have h2 : jsonStringify sampleHost
        (JSValue.obj [("temp", JSValue.num 21), ("sky", JSValue.arr [JSValue.str "clear"])])
        = some "\x7b\n  \"temp\": 21,\n  \"sky\": [\n    \"clear\"\n  ]\n\x7d" := by rfl
    rw [h2] at hjson
    exact (Option.some.inj hjson).symm
  rw [hj]
  rfl

/-- Claim C3 as stated fails: `false` and the empty string are present JSON payloads, and
for an unrecognised key they are answered with `No data received.`, not with the dumps
`<pre>false</pre>` and `<pre>""</pre>`. -/
theorem createParsedResponse_present_falsy_not_dumped :
    "weather" ∉ recognisedKeys ∧
    jsonStringify sampleHost (JSValue.bool false) = some "false" ∧
    createParsedResponse sampleHost "weather" (JSValue.bool false)
      = Except.ok "No data received." ∧
    jsonStringify sampleHost (JSValue.str "") = some "\"\"" ∧
    createParsedResponse sampleHost "weather" (JSValue.str "")
      = Except.ok "No data received." ∧
    "No data received." ≠ "<pre>" ++ "false" ++ "</pre>" ∧
    "No data received." ≠ "<pre>" ++ "\"\"" ++ "</pre>" := by
  refine ⟨by decide, rfl, rfl, rfl, rfl, by decide, by decide⟩

/-- Claim C9: for a payload whose `fact` field is the string `f`, the `catfact` rendering is
exactly `<strong>Fact:</strong> ` followed by `f`, so `f` occurs literally in the returned
HTML. -/
theorem createParsedResponse_catfact (host : Host ν) (data : JSValue ν) (f : String)
    (hfact : getProp host data "fact" = Except.ok (JSValue.str f)) :
    createParsedResponse host "catfact" data = Except.ok ("<strong>Fact:</strong> " ++ f) ∧
    f.data <:+: ("<strong>Fact:</strong> " ++ f).data := by
  constructor
  · cases data with
    | obj ps =>
      simp [createParsedResponse, truthy, hfact, toStr, bind, Except.bind]
      rfl
    | undefined => simp [getProp, throw, throwThe, MonadExceptOf.throw] at hfact
    | null => simp [getProp, throw, throwThe, MonadExceptOf.throw] at hfact
    | bool b => simp [getProp, pure, Except.pure] at hfact
    | num n => simp [getProp, pure, Except.pure] at hfact
    | str s => simp [getProp, pure, Except.pure] at hfact
    | arr xs => simp [getProp, pure, Except.pure] at hfact
  · rw [String.data_append]
    exact List.IsSuffix.isInfix (List.suffix_append _ _)

/-- Claim C9 at the payload of the specification: `fact` is `Cats sleep a lot.`. -/
theorem createParsedResponse_catfact_witness :
    getProp sampleHost (JSValue.obj [("fact", JSValue.str "Cats sleep a lot.")]) "fact"
      = Except.ok (JSValue.str "Cats sleep a lot.") ∧
    createParsedResponse sampleHost "catfact"
        (JSValue.obj [("fact", JSValue.str "Cats sleep a lot.")])
      = Except.ok "<strong>Fact:</strong> Cats sleep a lot." :=
  ⟨rfl, (createParsedResponse_catfact sampleHost
    (JSValue.obj [("fact", JSValue.str "Cats sleep a lot.")]) "Cats sleep a lot." rfl).1⟩

/-! ## `callApi`: validation and request target -/

theorem callApi_name_empty (host : Host ν) (fetch : String → FetchResult ν) (ui : UI)
    (hkey : isNameKeyed ui.apiSelect = true) (hempty : ui.nameParam = "") :
    callApi host fetch ui =
      ({ showLoading ui with
          parsedDisplay := "<span class=\"error\">Please enter a name.</span>" }, []) := by
  simp [callApi, hkey, showLoading, hempty]

theorem callApi_pokemon_empty (host : Host ν) (fetch : String → FetchResult ν) (ui : UI)
    (hkey : ui.apiSelect = "pokeapi") (hempty : ui.pokemonParam = "") :
    callApi host fetch ui =
      ({ showLoading ui with
          parsedDisplay := "<span class=\"error\">Please enter a Pokémon name or ID.</span>" },
        []) := by
  simp [callApi, hkey, showLoading, hempty, isNameKeyed_pokeapi]

theorem callApi_name_send (host : Host ν) (fetch : String → FetchResult ν) (ui : UI)
    (hkey : isNameKeyed ui.apiSelect = true) (hfilled : ui.nameParam ≠ "") :
    callApi host fetch ui =
      sendRequest host fetch ui.apiSelect ("/api/" ++ ui.apiSelect) [("name", ui.nameParam)]
        (showLoading ui) := by
  simp [callApi, hkey, showLoading, hfilled]

theorem callApi_pokemon_send (host : Host ν) (fetch : String → FetchResult ν) (ui : UI)
    (hkey : ui.apiSelect = "pokeapi") (hfilled : ui.pokemonParam ≠ "") :
    callApi host fetch ui =
      sendRequest host fetch ui.apiSelect ("/api/" ++ ui.apiSelect)
        [("pokemon", ui.pokemonParam)] (showLoading ui) := by
  simp [callApi, hkey, showLoading, hfilled, isNameKeyed_pokeapi]

theorem callApi_plain_send (host : Host ν) (fetch : String → FetchResult ν) (ui : UI)
    (hname : isNameKeyed ui.apiSelect = false) (hpoke : ui.apiSelect ≠ "pokeapi") :
    callApi host fetch ui =
      sendRequest host fetch ui.apiSelect ("/api/" ++ ui.apiSelect) [] (showLoading ui) := by
  simp [callApi, hname, hpoke]

theorem append_ne_empty (a b : String) (ha : a ≠ "") : a ++ b ≠ "" := by
  intro h
  apply ha
  have hd := congrArg String.data h
  rw [String.data_append] at hd
  have ha2 : a.data = [] := (List.append_eq_nil.mp hd).1
  exact String.ext ha2

theorem withQuery_one (url key value : String) (hkey : formEncode key = key)
    (hne : key ≠ "") :
    withQuery url (searchParamsToString [(key, value)])
      = url ++ "?" ++ (key ++ "=" ++ formEncode value) := by
  have hq : searchParamsToString [(key, value)] = key ++ "=" ++ formEncode value := by
    simp [searchParamsToString, String.intercalate, String.intercalate.go, hkey]
  have hne2 : key ++ "=" ++ formEncode value ≠ "" := by
    rw [String.append_assoc]
    exact append_ne_empty _ _ hne
  simp [withQuery, hq, hne2]

theorem query_name (url value : String) :
    url ++ "?" ++ ("name" ++ "=" ++ value) = url ++ "?name=" ++ value := by
  have e : "?name=" = "?" ++ ("name" ++ "=") := by decide
  rw [e]
  simp only [String.append_assoc]

theorem query_pokemon (url value : String) :
    url ++ "?" ++ ("pokemon" ++ "=" ++ value) = url ++ "?pokemon=" ++ value := by
  have e : "?pokemon=" = "?" ++ ("pokemon" ++ "=") := by decide
  rw [e]
  simp only [String.append_assoc]

theorem withQuery_none (url : String) : withQuery url (searchParamsToString []) = url := by
  simp [withQuery, searchParamsToString, String.intercalate]

theorem sendRequest_fetched (host : Host ν) (fetch : String → FetchResult ν)
    (selectedApi url : String) (params : List (String × String)) (ui : UI) :
    (sendRequest host fetch selectedApi url params ui).2
      = [withQuery url (searchParamsToString params)] := by
  cases h : tryBlock host selectedApi (fetch (withQuery url (searchParamsToString params))) ui with
  | ok done => simp [sendRequest, h]
  | error e => simp [sendRequest, h]

theorem toNat_ofNat_cases (m : Nat) :
    (Char.ofNat m).toNat = m ∨ (Char.ofNat m).toNat = 0 := by
  unfold Char.ofNat
  split
  · left
    simp only [Char.ofNatAux, Char.toNat]
    rfl
  · right
    rfl

theorem hexUpper_ne_amp (n : Nat) : hexUpper n ≠ '&' := by
  intro h
  have hn := congrArg Char.toNat h
  have h38 : ('&' : Char).toNat = 38 := rfl
  rw [h38] at hn
  unfold hexUpper at hn
  split at hn
  · rcases toNat_ofNat_cases (48 + n) with h1 | h1 <;> omega
  · rcases toNat_ofNat_cases (55 + n) with h1 | h1 <;> omega

theorem formEncodeChar_no_amp (c : Char) : '&' ∉ formEncodeChar c := by
  unfold formEncodeChar
  split
  · decide
  · split
    · rename_i h
      intro hmem
      have hc : c = '&' := (List.mem_singleton.mp hmem).symm
      rw [hc] at h
      revert h
      decide
    · intro hmem
      simp only [List.mem_flatMap, List.mem_cons, List.mem_singleton] at hmem
      obtain ⟨b, _, hb⟩ := hmem
      rcases hb with hb | hb | hb | hb
      · revert hb
        decide
      · exact hexUpper_ne_amp _ hb.symm
      · exact hexUpper_ne_amp _ hb.symm
      · simp at hb

theorem formEncode_no_amp (s : String) : '&' ∉ (formEncode s).data := by
  unfold formEncode
  simp only [List.mem_flatMap, not_exists, not_and]
  intro c _
  exact formEncodeChar_no_amp c

/-- Claim C7: with field values that pass validation, `callApi` fetches exactly one target:
`/api/<key>` with nothing appended when the key is neither name-keyed nor `pokeapi`,
`/api/<key>?name=<encoded name>` for `agify`, `genderize` and `nationalize`, and
`/api/pokeapi?pokemon=<encoded value>` for `pokeapi`.  An encoded value holds no `&`, so the
query string carries at most the one parameter of the key's group, and the target does not
mention the field of the other group. -/
theorem callApi_request_target (host : Host ν) (fetch : String → FetchResult ν) (ui : UI) :
    (isNameKeyed ui.apiSelect = false → ui.apiSelect ≠ "pokeapi" →
      (callApi host fetch ui).2 = ["/api/" ++ ui.apiSelect]) ∧
    ((ui.apiSelect = "agify" ∨ ui.apiSelect = "genderize" ∨ ui.apiSelect = "nationalize") →
      ui.nameParam ≠ "" →
      (callApi host fetch ui).2
        = ["/api/" ++ ui.apiSelect ++ "?name=" ++ formEncode ui.nameParam]) ∧
    (ui.apiSelect = "pokeapi" → ui.pokemonParam ≠ "" →
      (callApi host fetch ui).2
        = ["/api/pokeapi?pokemon=" ++ formEncode ui.pokemonParam]) ∧
    (∀ value : String, '&' ∉ (formEncode value).data) := by
  refine ⟨?_, ?_, ?_, formEncode_no_amp⟩
  · intro hname hpoke
    rw [callApi_plain_send host fetch ui hname hpoke, sendRequest_fetched, withQuery_none]
  · intro hkey hfilled
    rw [callApi_name_send host fetch ui ((isNameKeyed_iff _).mpr hkey) hfilled,
      sendRequest_fetched, withQuery_one _ _ _ (by decide) (by decide), query_name]
  · intro hkey hfilled
    rw [callApi_pokemon_send host fetch ui hkey hfilled, sendRequest_fetched,
      withQuery_one _ _ _ (by decide) (by decide), query_pokemon, hkey]
    have e : "/api/pokeapi?pokemon=" = "/api/" ++ "pokeapi" ++ "?pokemon=" := by decide
    rw [e]

/-- Claim C7 at concrete inputs: a plain key, a name-keyed key and `pokeapi`, each with both
fields filled in. -/
theorem callApi_request_target_witness :
    (callApi sampleHost (fun _ => FetchResult.rejected "Failed to fetch")
        (samplePage "dogs" "Ann Lee" "mr. mime")).2 = ["/api/dogs"] ∧
    (callApi sampleHost (fun _ => FetchResult.rejected "Failed to fetch")
        (samplePage "agify" "Ann & Lee" "mr. mime")).2 = ["/api/agify?name=Ann+%26+Lee"] ∧
    (callApi sampleHost (fun _ => FetchResult.rejected "Failed to fetch")
        (samplePage "pokeapi" "Ann Lee" "mr. mime")).2 = ["/api/pokeapi?pokemon=mr.+mime"] :=
  ⟨(callApi_request_target sampleHost _ (samplePage "dogs" "Ann Lee" "mr. mime")).1
      (by decide) (by decide),
   (callApi_request_target sampleHost _ (samplePage "agify" "Ann & Lee" "mr. mime")).2.1
      (Or.inl rfl) (by decide),
   (callApi_request_target sampleHost _ (samplePage "pokeapi" "Ann Lee" "mr. mime")).2.2.1
      rfl (by decide)⟩

/-- Claim C2: when the selected API needs a parameter and its field is empty, `callApi` calls
`fetch` not at all and sets the rendered pane to the inline error: the `Please enter a name.`
span for `agify`, `genderize` and `nationalize`, the `Please enter a Pokémon name or ID.`
span for `pokeapi`. -/
theorem callApi_empty_field (host : Host ν) (fetch : String → FetchResult ν) (ui : UI) :
    ((ui.apiSelect = "agify" ∨ ui.apiSelect = "genderize" ∨ ui.apiSelect = "nationalize") →
      ui.nameParam = "" →
      (callApi host fetch ui).2 = [] ∧
      (callApi host fetch ui).1.parsedDisplay
        = "<span class=\"error\">Please enter a name.</span>") ∧
    (ui.apiSelect = "pokeapi" → ui.pokemonParam = "" →
      (callApi host fetch ui).2 = [] ∧
      (callApi host fetch ui).1.parsedDisplay
        = "<span class=\"error\">Please enter a Pokémon name or ID.</span>") := by
  constructor
  · intro hkey hempty
    rw [callApi_name_empty host fetch ui ((isNameKeyed_iff _).mpr hkey) hempty]
    exact ⟨rfl, rfl⟩
  · intro hkey hempty
    rw [callApi_pokemon_empty host fetch ui hkey hempty]
    exact ⟨rfl, rfl⟩

/-- Claim C2 at concrete inputs: `genderize` with an empty name (the Pokémon field filled
in) and `pokeapi` with an empty Pokémon field (the name field filled in). -/
theorem callApi_empty_field_witness :
    ((callApi sampleHost (answerWith ⟨200, Body.json JSValue.null⟩)
        (samplePage "genderize" "" "pikachu")).2 = [] ∧
      (callApi sampleHost (answerWith ⟨200, Body.json JSValue.null⟩)
        (samplePage "genderize" "" "pikachu")).1.parsedDisplay
        = "<span class=\"error\">Please enter a name.</span>") ∧
    ((callApi sampleHost (answerWith ⟨200, Body.json JSValue.null⟩)
        (samplePage "pokeapi" "Ann" "")).2 = [] ∧
      (callApi sampleHost (answerWith ⟨200, Body.json JSValue.null⟩)
        (samplePage "pokeapi" "Ann" "")).1.parsedDisplay
        = "<span class=\"error\">Please enter a Pokémon name or ID.</span>") :=
  ⟨(callApi_empty_field sampleHost _ (samplePage "genderize" "" "pikachu")).1
      (Or.inr (Or.inl rfl)) rfl,
   (callApi_empty_field sampleHost _ (samplePage "pokeapi" "Ann" "")).2 rfl rfl⟩

/-! ## `callApi`: validation failure -/

/-- Claim C10, as the code has it: `callApi` clears the three panes before it validates.
When validation fails it stops there: `fetch` is not called, the rendered pane ends as the
inline error (never as `Loading...`), nothing but the panes changes, and the outcome does not
depend on what the three panes held before the call, so the raw panes do not keep their
earlier content. -/
theorem callApi_validation_failure (host : Host ν) (fetch : String → FetchResult ν) (ui : UI)
    (hfail : (isNameKeyed ui.apiSelect = true ∧ ui.nameParam = "") ∨
      (ui.apiSelect = "pokeapi" ∧ ui.pokemonParam = "")) :
    (callApi host fetch ui).2 = [] ∧
    ((callApi host fetch ui).1.parsedDisplay
        = "<span class=\"error\">Please enter a name.</span>" ∨
      (callApi host fetch ui).1.parsedDisplay
        = "<span class=\"error\">Please enter a Pokémon name or ID.</span>") ∧
    (callApi host fetch ui).1.parsedDisplay ≠ "Loading..." ∧
    ((callApi host fetch ui).1.apiSelect = ui.apiSelect ∧
      (callApi host fetch ui).1.nameInput = ui.nameInput ∧
      (callApi host fetch ui).1.nameParam = ui.nameParam ∧
      (callApi host fetch ui).1.pokemonInput = ui.pokemonInput ∧
      (callApi host fetch ui).1.pokemonParam = ui.pokemonParam ∧
      (callApi host fetch ui).1.apiDescriptionDiv = ui.apiDescriptionDiv) ∧
    (∀ parsed rawCall rawResponse : String,
      callApi host fetch
          { ui with
            parsedDisplay := parsed
            rawCallDisplay := rawCall
            rawResponseDisplay := rawResponse }
        = callApi host fetch ui) := by
  rcases hfail with ⟨hkey, hempty⟩ | ⟨hkey, hempty⟩
  · refine ⟨?_, ?_, ?_, ?_, ?_⟩
    · rw [callApi_name_empty host fetch ui hkey hempty]
    · rw [callApi_name_empty host fetch ui hkey hempty]
      exact Or.inl rfl
    · rw [callApi_name_empty host fetch ui hkey hempty]
      exact (by decide : "<span class=\"error\">Please enter a name.</span>" ≠ "Loading...")
    · rw [callApi_name_empty host fetch ui hkey hempty]
      exact ⟨rfl, rfl, rfl, rfl, rfl, rfl⟩
    · intro parsed rawCall rawResponse
      rw [callApi_name_empty host fetch ui hkey hempty,
        callApi_name_empty host fetch
          { ui with
            parsedDisplay := parsed
            rawCallDisplay := rawCall
            rawResponseDisplay := rawResponse } hkey hempty]
      rfl
  · refine ⟨?_, ?_, ?_, ?_, ?_⟩
    · rw [callApi_pokemon_empty host fetch ui hkey hempty]
    · rw [callApi_pokemon_empty host fetch ui hkey hempty]
      exact Or.inr rfl
    · rw [callApi_pokemon_empty host fetch ui hkey hempty]
      exact (by decide :
        "<span class=\"error\">Please enter a Pokémon name or ID.</span>" ≠ "Loading...")
    · rw [callApi_pokemon_empty host fetch ui hkey hempty]
      exact ⟨rfl, rfl, rfl, rfl, rfl, rfl⟩
    · intro parsed rawCall rawResponse
      rw [callApi_pokemon_empty host fetch ui hkey hempty,
        callApi_pokemon_empty host fetch
          { ui with
            parsedDisplay := parsed
            rawCallDisplay := rawCall
            rawResponseDisplay := rawResponse } hkey hempty]
      rfl

/-- Claim C10 at a concrete input: `agify` with an empty name field. -/
theorem callApi_validation_failure_witness :
    ((isNameKeyed (samplePage "agify" "" "").apiSelect = true ∧
        (samplePage "agify" "" "").nameParam = "") ∨
      ((samplePage "agify" "" "").apiSelect = "pokeapi" ∧
        (samplePage "agify" "" "").pokemonParam = "")) ∧
    (callApi sampleHost (answerWith ⟨200, Body.json JSValue.null⟩)
      (samplePage "agify" "" "")).2 = [] ∧
    (callApi sampleHost (answerWith ⟨200, Body.json JSValue.null⟩)
      (samplePage "agify" "" "")).1.parsedDisplay ≠ "Loading..." :=
  ⟨Or.inl ⟨by decide, rfl⟩,
   (callApi_validation_failure sampleHost (answerWith ⟨200, Body.json JSValue.null⟩)
      (samplePage "agify" "" "") (Or.inl ⟨by decide, rfl⟩)).1,
   (callApi_validation_failure sampleHost (answerWith ⟨200, Body.json JSValue.null⟩)
      (samplePage "agify" "" "") (Or.inl ⟨by decide, rfl⟩)).2.2.1⟩

/-- Claim C10 as stated fails: with `agify` selected and an empty name field, the raw-call
pane held `old call` and the raw-response pane `old response` before the call; after it both
hold `Loading...`, although no request was issued. -/
theorem callApi_validation_overwrites_raw_panes :
    (samplePage "agify" "" "").rawCallDisplay = "old call" ∧
    (samplePage "agify" "" "").rawResponseDisplay = "old response" ∧
    (callApi sampleHost (answerWith ⟨200, Body.json JSValue.null⟩)
      (samplePage "agify" "" "")).2 = [] ∧
    (callApi sampleHost (answerWith ⟨200, Body.json JSValue.null⟩)
      (samplePage "agify" "" "")).1.rawCallDisplay = "Loading..." ∧
    (callApi sampleHost (answerWith ⟨200, Body.json JSValue.null⟩)
      (samplePage "agify" "" "")).1.rawResponseDisplay = "Loading..." ∧
    (callApi sampleHost (answerWith ⟨200, Body.json JSValue.null⟩)
      (samplePage "agify" "" "")).1.rawCallDisplay
      ≠ (samplePage "agify" "" "").rawCallDisplay := by
  refine ⟨rfl, rfl, rfl, rfl, rfl, by decide⟩

/-! ## `callApi`: the message of a failed response -/

/-- Claim C5, as the code has it.  For a response whose status is not 2xx the `try` block
throws, with the panes untouched, an error whose message is
* the string form of the `error` field of the parsed body when that field is truthy (the
  field itself when it is a non-empty string);
* `HTTP error! status: <status>` when the body parses to a value other than `null` whose
  `error` field is absent or falsy;
* the message of the engine's `TypeError` when the body parses to `null`;
* the message `response.json()` rejects with when the body cannot be parsed. -/
theorem tryBlock_failed_response (host : Host ν) (selectedApi : String)
    (response : Response ν) (ui : UI) (hstatus : response.ok = false) :
    (∀ body error text, response.body = Body.json body →
      getProp host body "error" = Except.ok error → truthy host error = true →
      toStr host error = Except.ok text →
      tryBlock host selectedApi (FetchResult.resolved response) ui
        = Except.error (text, ui)) ∧
    (∀ body text, response.body = Body.json body →
      getProp host body "error" = Except.ok (JSValue.str text) → text ≠ "" →
      tryBlock host selectedApi (FetchResult.resolved response) ui
        = Except.error (text, ui)) ∧
    (∀ body error, response.body = Body.json body →
      getProp host body "error" = Except.ok error → truthy host error = false →
      tryBlock host selectedApi (FetchResult.resolved response) ui
        = Except.error ("HTTP error! status: " ++ toString response.status, ui)) ∧
    (response.body = Body.json JSValue.null →
      tryBlock host selectedApi (FetchResult.resolved response) ui
        = Except.error (host.errReadProperty true "error", ui)) ∧
    (∀ message, response.body = Body.invalid message →
      tryBlock host selectedApi (FetchResult.resolved response) ui
        = Except.error (message, ui)) := by
  refine ⟨?_, ?_, ?_, ?_, ?_⟩
  · intro body error text hbody hget htruthy htext
    simp [tryBlock, hstatus, errorArgument, Response.json, hbody, hget, htruthy, htext,
      bind, Except.bind, pure, Except.pure]
  · intro body text hbody hget hne
    simp [tryBlock, hstatus, errorArgument, Response.json, hbody, hget, truthy, hne, toStr,
      bind, Except.bind, pure, Except.pure]
  · intro body error hbody hget hfalsy
    simp [tryBlock, hstatus, errorArgument, Response.json, hbody, hget, hfalsy,
      bind, Except.bind, pure, Except.pure]
  · intro hbody
    simp [tryBlock, hstatus, errorArgument, Response.json, hbody, getProp,
      bind, Except.bind, pure, Except.pure, throw, throwThe, MonadExceptOf.throw]
  · intro message hbody
    simp [tryBlock, hstatus, errorArgument, Response.json, hbody,
      bind, Except.bind, throw, throwThe, MonadExceptOf.throw]

/-- Claim C5 at concrete inputs: status 429 with body `{error: "rate limited"}`, and status
404 with the body `{}`. -/
theorem tryBlock_failed_response_witness :
    Response.ok (⟨429, Body.json (JSValue.obj [("error", JSValue.str "rate limited")])⟩ :
      Response Int) = false ∧
    tryBlock sampleHost "dogs"
        (FetchResult.resolved
          ⟨429, Body.json (JSValue.obj [("error", JSValue.str "rate limited")])⟩)
        (samplePage "dogs" "" "")
      = Except.error ("rate limited", samplePage "dogs" "" "") ∧
    tryBlock sampleHost "dogs" (FetchResult.resolved ⟨404, Body.json (JSValue.obj [])⟩)
        (samplePage "dogs" "" "")
      = Except.error ("HTTP error! status: 404", samplePage "dogs" "" "") :=
  ⟨rfl,
   (tryBlock_failed_response sampleHost "dogs"
      ⟨429, Body.json (JSValue.obj [("error", JSValue.str "rate limited")])⟩
      (samplePage "dogs" "" "") rfl).2.1 _ "rate limited" rfl rfl (by decide),
   (tryBlock_failed_response sampleHost "dogs" ⟨404, Body.json (JSValue.obj [])⟩
      (samplePage "dogs" "" "") rfl).2.2.1 _ JSValue.undefined rfl rfl rfl⟩

/-- Claim C5 as stated fails: a status-500 response whose body is not JSON makes `callApi`
report the parse failure of `response.json()`, not `HTTP error! status: 500`; and a status-500
body `{error: ""}`, which has the field, is reported with the generic message, not with the
field. -/
theorem callApi_unparseable_error_body :
    (callApi sampleHost (answerWith ⟨500, Body.invalid "Unexpected end of JSON input"⟩)
        (samplePage "dogs" "" "")).1.rawResponseDisplay
      = "Error: Unexpected end of JSON input" ∧
    (callApi sampleHost (answerWith ⟨500, Body.invalid "Unexpected end of JSON input"⟩)
        (samplePage "dogs" "" "")).1.rawResponseDisplay
      ≠ "Error: HTTP error! status: 500" ∧
    (callApi sampleHost
        (answerWith ⟨500, Body.json (JSValue.obj [("error", JSValue.str "")])⟩)
        (samplePage "dogs" "" "")).1.rawResponseDisplay
      = "Error: HTTP error! status: 500" := by
  refine ⟨rfl, by decide, rfl⟩

/-! ## `callApi`: display of a failed request cycle -/

theorem callApi_sends (host : Host ν) (fetch : String → FetchResult ν) (ui : UI)
    (hname : isNameKeyed ui.apiSelect = true → ui.nameParam ≠ "")
    (hpoke : ui.apiSelect = "pokeapi" → ui.pokemonParam ≠ "") :
    ∃ params,
      callApi host fetch ui
        = sendRequest host fetch ui.apiSelect ("/api/" ++ ui.apiSelect) params (showLoading ui) ∧
      withQuery ("/api/" ++ ui.apiSelect) (searchParamsToString params)
        = "/api/" ++ ui.apiSelect ++
          (if isNameKeyed ui.apiSelect = true then "?name=" ++ formEncode ui.nameParam
            else if ui.apiSelect = "pokeapi" then "?pokemon=" ++ formEncode ui.pokemonParam
            else "") := by
  by_cases hn : isNameKeyed ui.apiSelect = true
  · refine ⟨[("name", ui.nameParam)], callApi_name_send host fetch ui hn (hname hn), ?_⟩
    rw [withQuery_one _ _ _ (by decide) (by decide), query_name]
    simp [hn, String.append_assoc]
  · by_cases hp : ui.apiSelect = "pokeapi"
    · refine ⟨[("pokemon", ui.pokemonParam)],
        callApi_pokemon_send host fetch ui hp (hpoke hp), ?_⟩
      rw [withQuery_one _ _ _ (by decide) (by decide), query_pokemon, if_neg hn, if_pos hp]
      simp only [String.append_assoc]
    · refine ⟨[], callApi_plain_send host fetch ui (by simpa using hn) hp, ?_⟩
      rw [withQuery_none]
      simp [hn, hp]

theorem tryBlock_fails (host : Host ν) (selectedApi : String) (fetched : FetchResult ν)
    (ui : UI) (m : String)
    (hfail :
      fetched = FetchResult.rejected m ∨
      (∃ response, fetched = FetchResult.resolved response ∧ response.ok = false ∧
        (errorArgument host response = Except.ok m ∨
          errorArgument host response = Except.error m)) ∨
      (∃ response, fetched = FetchResult.resolved response ∧
        response.body = Body.invalid m) ∨
      (∃ response result requestUrl requestUrlText data,
        fetched = FetchResult.resolved response ∧ response.ok = true ∧
        response.body = Body.json result ∧
        getProp host result "request_url" = Except.ok requestUrl ∧
        toStr host requestUrl = Except.ok requestUrlText ∧
        getProp host result "data" = Except.ok data ∧
        createParsedResponse host selectedApi data = Except.error m)) :
    ∃ thrown, tryBlock host selectedApi fetched ui = Except.error (m, thrown) := by
  rcases hfail with h | ⟨response, h, hok, harg⟩ | ⟨response, h, hbody⟩ |
    ⟨response, result, requestUrl, requestUrlText, data, h, hok, hbody, hurl, htext, hdata,
      hrender⟩
  · exact ⟨ui, by simp [tryBlock, h]⟩
  · rcases harg with harg | harg
    · exact ⟨ui, by simp [tryBlock, h, hok, harg]⟩
    · exact ⟨ui, by simp [tryBlock, h, hok, harg]⟩
  · cases hok : response.ok
    · exact ⟨ui, by
        simp [tryBlock, h, hok, errorArgument, Response.json, hbody, bind, Except.bind,
          throw, throwThe, MonadExceptOf.throw]⟩
    · exact ⟨ui, by
        simp [tryBlock, h, hok, Response.json, hbody, throw, throwThe, MonadExceptOf.throw]⟩
  · exact ⟨_, by
      simp [tryBlock, h, hok, Response.json, hbody, hurl, htext, hdata, hrender, bind,
        Except.bind, pure, Except.pure]
      rfl⟩

theorem sendRequest_failure (host : Host ν) (fetch : String → FetchResult ν)
    (selectedApi url : String) (params : List (String × String)) (ui thrown : UI) (m : String)
    (h : tryBlock host selectedApi (fetch (withQuery url (searchParamsToString params))) ui
      = Except.error (m, thrown)) :
    (sendRequest host fetch selectedApi url params ui).1 =
      { thrown with
        parsedDisplay := "<span class=\"error\">" ++ ("Error: " ++ m) ++ "</span>"
        rawCallDisplay := "```bash\ncurl -X GET \""
          ++ withQuery url (searchParamsToString params) ++ "\"\n```"
        rawResponseDisplay := "Error: " ++ m } := by
  simp [sendRequest, h]

theorem head_ne_of_append (a x b : String) (c d : Char) (ha : a.data.head? = some c)
    (hb : b.data.head? = some d) (hcd : c ≠ d) : a ++ x ≠ b := by
  intro h
  have hd := congrArg (fun t : String => t.data.head?) h
  simp only [String.data_append] at hd
  cases hdata : a.data with
  | nil => simp [hdata] at ha
  | cons y ys =>
    rw [hdata] at ha hd
    simp only [List.cons_append, List.head?_cons] at ha hd
    rw [hb] at hd
    rw [ha] at hd
    exact hcd (Option.some.inj hd)

/-! ## The `innerHTML` setter on a plain message -/

theorem normalizeNewlines_plain (l : List Char) (hl : ∀ c ∈ l, c ≠ Char.ofNat 13) :
    normalizeNewlines false l = l := by
  induction l with
  | nil => rfl
  | cons c rest ih =>
    have hc : c ≠ Char.ofNat 13 := hl c (List.mem_cons_self c rest)
    have hrest : ∀ d ∈ rest, d ≠ Char.ofNat 13 :=
      fun d hd => hl d (List.mem_cons_of_mem c hd)
    simp [normalizeNewlines, hc, ih hrest]

theorem runTokenizer_append (l1 l2 : List Char) (state : TokenizerState) (b : HtmlBuilder) :
    runTokenizer state b (l1 ++ l2) =
      match runTokenizer state b l1 with
      | none => none
      | some next => runTokenizer next.1 next.2 l2 := by
  induction l1 generalizing state b with
  | nil => rfl
  | cons c rest ih =>
    simp only [List.cons_append, runTokenizer]
    cases hstep : tokenizerStep state b c with
    | none => rfl
    | some next => exact ih next.1 next.2

theorem push_append_mk (t : String) (c : Char) (l : List Char) :
    t.push c ++ String.mk l = t ++ String.mk (c :: l) := by
  apply String.ext
  simp [String.data_append, String.data_push]

theorem runTokenizer_plain (l : List Char) (hl : ∀ c ∈ l, plainCharacter c)
    (pane : List HtmlNode) (attrs : List (String × String)) (t : String)
    (rest : List (List (String × String) × List HtmlNode)) :
    runTokenizer TokenizerState.data ⟨pane, (attrs, [HtmlNode.text t]) :: rest⟩ l
      = some (TokenizerState.data,
          ⟨pane, (attrs, [HtmlNode.text (t ++ String.mk l)]) :: rest⟩) := by
  induction l generalizing t with
  | nil =>
    have e : t ++ String.mk [] = t := by
      apply String.ext
      simp [String.data_append]
    rw [e]
    rfl
  | cons c cs ih =>
    obtain ⟨h1, _, h3, h4, _, _⟩ := hl c (List.mem_cons_self c cs)
    have hcs : ∀ d ∈ cs, plainCharacter d := fun d hd => hl d (List.mem_cons_of_mem c hd)
    have hstep : tokenizerStep TokenizerState.data
        ⟨pane, (attrs, [HtmlNode.text t]) :: rest⟩ c
        = some (TokenizerState.data, ⟨pane, (attrs, [HtmlNode.text (t.push c)]) :: rest⟩) := by
      simp [tokenizerStep, dataCharacter, h1, h3, insertCharacter, h4, appendCharacter]
    simp only [runTokenizer, hstep]
    rw [ih hcs (t.push c), push_append_mk]

theorem runTokenizer_close (attrs : List (String × String)) (children : List HtmlNode) :
    runTokenizer TokenizerState.data ⟨[], [(attrs, children)]⟩ "</span>".data
      = some (TokenizerState.data, ⟨[HtmlNode.span attrs children.reverse], []⟩) := by
  rfl

theorem escapeText_plain (l : List Char) (hl : ∀ c ∈ l, plainCharacter c) :
    l.flatMap escapeTextCharacter = l := by
  induction l with
  | nil => rfl
  | cons c cs ih =>
    obtain ⟨h1, h2, h3, _, _, h6⟩ := hl c (List.mem_cons_self c cs)
    have hcs : ∀ d ∈ cs, plainCharacter d := fun d hd => hl d (List.mem_cons_of_mem c hd)
    simp [List.flatMap_cons, escapeTextCharacter, h1, h2, h3, h6, ih hcs]

theorem parseFragment_error_span (m : String) (hm : ∀ c ∈ m.data, plainCharacter c) :
    parseFragment ("<span class=\"error\">Error: " ++ m ++ "</span>")
      = some [HtmlNode.span [("class", "error")] [HtmlNode.text ("Error: " ++ m)]] := by
  have hdata : ("<span class=\"error\">Error: " ++ m ++ "</span>").data
      = "<span class=\"error\">Error: ".data ++ (m.data ++ "</span>".data) := by
    simp [String.data_append]
  have hnorm : normalizeNewlines false
      ("<span class=\"error\">Error: ".data ++ (m.data ++ "</span>".data))
      = "<span class=\"error\">Error: ".data ++ (m.data ++ "</span>".data) := by
    apply normalizeNewlines_plain
    intro c hc
    rcases List.mem_append.mp hc with h | h
    · intro e
      rw [e] at h
      revert h
      decide
    · rcases List.mem_append.mp h with h | h
      · exact (hm c h).2.2.2.2.1
      · intro e
        rw [e] at h
        revert h
        decide
  have hopen : runTokenizer TokenizerState.data ⟨[], []⟩ "<span class=\"error\">Error: ".data
      = some (TokenizerState.data,
          ⟨[], [([("class", "error")], [HtmlNode.text "Error: "])]⟩) := by
    rfl
  have hmid := runTokenizer_plain m.data hm [] [("class", "error")] "Error: " []
  have hm2 : "Error: " ++ String.mk m.data = "Error: " ++ m := rfl
  rw [hm2] at hmid
  have hclose := runTokenizer_close [("class", "error")] [HtmlNode.text ("Error: " ++ m)]
  unfold parseFragment
  rw [hdata, hnorm, runTokenizer_append, hopen]
  simp only []
  rw [runTokenizer_append, hmid]
  simp only []
  rw [hclose]
  rfl

theorem serialize_error_span (t : String) :
    serializeNodes [HtmlNode.span [("class", "error")] [HtmlNode.text t]]
      = "<span class=\"error\">" ++ escapeText t ++ "</span>" := by
  have e : "<span class=\"error\">" = "<span" ++ (" " ++ "class" ++ "=\"" ++ "error" ++ "\"" ++ "")
      ++ ">" := by decide
  rw [e]
  simp only [serializeNodes, serializeNode, serializeAttributes]
  apply String.ext
  simp [String.data_append]

theorem innerHTMLAfter_error_span (m : String) (hm : ∀ c ∈ m.data, plainCharacter c) :
    innerHTMLAfter ("<span class=\"error\">Error: " ++ m ++ "</span>")
      = some ("<span class=\"error\">Error: " ++ m ++ "</span>") ∧
    textContentAfter ("<span class=\"error\">Error: " ++ m ++ "</span>")
      = some ("Error: " ++ m) := by
  have hplain : ∀ c ∈ ("Error: " ++ m).data, plainCharacter c := by
    intro c hc
    rw [String.data_append] at hc
    rcases List.mem_append.mp hc with h | h
    · have hall : ∀ d ∈ "Error: ".data, plainCharacter d := by
        unfold plainCharacter
        decide
      exact hall c h
    · exact hm c h
  have hesc : escapeText ("Error: " ++ m) = "Error: " ++ m := by
    unfold escapeText
    rw [escapeText_plain _ hplain]
  constructor
  · unfold innerHTMLAfter
    rw [parseFragment_error_span m hm]
    simp only [Option.map_some']
    rw [serialize_error_span, hesc]
    have e : "<span class=\"error\">Error: " = "<span class=\"error\">" ++ "Error: " := by
      decide
    rw [e]
    simp only [String.append_assoc]
  · unfold textContentAfter
    rw [parseFragment_error_span m hm]
    simp only [Option.map_some', nodesText, nodeText]
    congr 1
    apply String.ext
    simp [String.data_append]

theorem validation_markup_unchanged :
    innerHTMLAfter "Loading..." = some "Loading..." ∧
    innerHTMLAfter "<span class=\"error\">Please enter a name.</span>"
      = some "<span class=\"error\">Please enter a name.</span>" ∧
    innerHTMLAfter "<span class=\"error\">Please enter a Pokémon name or ID.</span>"
      = some "<span class=\"error\">Please enter a Pokémon name or ID.</span>" := by
  refine ⟨rfl, rfl, rfl⟩

/-- Claim C6, as the code has it: when a request cycle that passed validation fails with
message `m` (`fetch` rejects; or the status is not 2xx and `m` is what the branch throws; or
`response.json()` rejects; or, on a 2xx response, `createParsedResponse` throws after both
raw panes were written), `callApi` assigns to the rendered pane the markup
`<span class="error">Error: m</span>`, sets the raw-response pane to `Error: m` and the
raw-call pane to the fenced `curl` command for the target it attempted, `/api/<key>` plus
`?name=...` or `?pokemon=...` when a parameter was collected; no pane is left at
`Loading...`.  The message is not escaped: the rendered pane holds exactly the assigned
markup, and shows the text of the raw-response pane, when `m` has none of the characters
`<`, `>`, `&`, `U+0000`, `CR` and `U+00A0`. -/
theorem callApi_failure_display (host : Host ν) (fetch : String → FetchResult ν) (ui : UI)
    (url m : String)
    (hname : isNameKeyed ui.apiSelect = true → ui.nameParam ≠ "")
    (hpoke : ui.apiSelect = "pokeapi" → ui.pokemonParam ≠ "")
    (hurl : url = "/api/" ++ ui.apiSelect ++
      (if isNameKeyed ui.apiSelect = true then "?name=" ++ formEncode ui.nameParam
        else if ui.apiSelect = "pokeapi" then "?pokemon=" ++ formEncode ui.pokemonParam
        else ""))
    (hfail :
      fetch url = FetchResult.rejected m ∨
      (∃ response, fetch url = FetchResult.resolved response ∧ response.ok = false ∧
        (errorArgument host response = Except.ok m ∨
          errorArgument host response = Except.error m)) ∨
      (∃ response, fetch url = FetchResult.resolved response ∧
        response.body = Body.invalid m) ∨
      (∃ response result requestUrl requestUrlText data,
        fetch url = FetchResult.resolved response ∧ response.ok = true ∧
        response.body = Body.json result ∧
        getProp host result "request_url" = Except.ok requestUrl ∧
        toStr host requestUrl = Except.ok requestUrlText ∧
        getProp host result "data" = Except.ok data ∧
        createParsedResponse host ui.apiSelect data = Except.error m)) :
    (callApi host fetch ui).1.parsedDisplay
      = "<span class=\"error\">Error: " ++ m ++ "</span>" ∧
    (callApi host fetch ui).1.rawResponseDisplay = "Error: " ++ m ∧
    (callApi host fetch ui).1.rawCallDisplay = "```bash\ncurl -X GET \"" ++ url ++ "\"\n```" ∧
    (callApi host fetch ui).2 = [url] ∧
    (callApi host fetch ui).1.parsedDisplay ≠ "Loading..." ∧
    (callApi host fetch ui).1.rawResponseDisplay ≠ "Loading..." ∧
    (callApi host fetch ui).1.rawCallDisplay ≠ "Loading..." ∧
    ((∀ c ∈ m.data, plainCharacter c) →
      innerHTMLAfter (callApi host fetch ui).1.parsedDisplay
        = some ("<span class=\"error\">Error: " ++ m ++ "</span>") ∧
      textContentAfter (callApi host fetch ui).1.parsedDisplay
        = some (callApi host fetch ui).1.rawResponseDisplay) := by
  obtain ⟨params, hsend, htarget⟩ := callApi_sends host fetch ui hname hpoke
  rw [← hurl] at htarget
  obtain ⟨thrown, hthrown⟩ := tryBlock_fails host ui.apiSelect (fetch url) (showLoading ui) m hfail
  rw [← htarget] at hthrown
  have hfinal := sendRequest_failure host fetch ui.apiSelect ("/api/" ++ ui.apiSelect) params
    (showLoading ui) thrown m hthrown
  rw [htarget] at hfinal
  have hfetched := sendRequest_fetched host fetch ui.apiSelect ("/api/" ++ ui.apiSelect) params
    (showLoading ui)
  rw [htarget] at hfetched
  rw [hsend, hfinal, hfetched]
  have hspan : "<span class=\"error\">" ++ ("Error: " ++ m) ++ "</span>"
      = "<span class=\"error\">Error: " ++ m ++ "</span>" := by
    have e : "<span class=\"error\">Error: " = "<span class=\"error\">" ++ "Error: " := by
      decide
    rw [e]
    simp only [String.append_assoc]
  refine ⟨hspan, rfl, rfl, rfl, ?_, ?_, ?_, ?_⟩
  · show "<span class=\"error\">" ++ ("Error: " ++ m) ++ "</span>" ≠ "Loading..."
    rw [String.append_assoc]
    exact head_ne_of_append _ _ _ '<' 'L' rfl rfl (by decide)
  · show "Error: " ++ m ≠ "Loading..."
    exact head_ne_of_append _ _ _ 'E' 'L' rfl rfl (by decide)
  · show "```bash\ncurl -X GET \"" ++ url ++ "\"\n```" ≠ "Loading..."
    rw [String.append_assoc]
    exact head_ne_of_append _ _ _ (Char.ofNat 96) 'L' rfl rfl (by decide)
  · intro hm
    show innerHTMLAfter ("<span class=\"error\">" ++ ("Error: " ++ m) ++ "</span>")
        = some ("<span class=\"error\">Error: " ++ m ++ "</span>") ∧
      textContentAfter ("<span class=\"error\">" ++ ("Error: " ++ m) ++ "</span>")
        = some ("Error: " ++ m)
    rw [hspan]
    exact innerHTMLAfter_error_span m hm

/-- Claim C6 at two concrete inputs.  A status-429 response with body
`{error: "rate limited"}` to the request for `agify` with name `Ann Lee` shows
`Error: rate limited` in the rendered and in the raw-response pane.  A status-200 response
for `advice` whose payload `{}` lacks `slip` makes `createParsedResponse` throw when both raw
panes already hold their success values; all three panes end with the error display. -/
theorem callApi_failure_display_witness :
    ((callApi sampleHost
        (answerWith ⟨429, Body.json (JSValue.obj [("error", JSValue.str "rate limited")])⟩)
        (samplePage "agify" "Ann Lee" "")).1.parsedDisplay
      = "<span class=\"error\">Error: rate limited</span>" ∧
    (callApi sampleHost
        (answerWith ⟨429, Body.json (JSValue.obj [("error", JSValue.str "rate limited")])⟩)
        (samplePage "agify" "Ann Lee" "")).1.rawResponseDisplay
      = "Error: rate limited" ∧
    (callApi sampleHost
        (answerWith ⟨429, Body.json (JSValue.obj [("error", JSValue.str "rate limited")])⟩)
        (samplePage "agify" "Ann Lee" "")).1.rawCallDisplay
      = "```bash\ncurl -X GET \"/api/agify?name=Ann+Lee\"\n```") ∧
    (innerHTMLAfter (callApi sampleHost
        (answerWith ⟨429, Body.json (JSValue.obj [("error", JSValue.str "rate limited")])⟩)
        (samplePage "agify" "Ann Lee" "")).1.parsedDisplay
      = some "<span class=\"error\">Error: rate limited</span>" ∧
    textContentAfter (callApi sampleHost
        (answerWith ⟨429, Body.json (JSValue.obj [("error", JSValue.str "rate limited")])⟩)
        (samplePage "agify" "Ann Lee" "")).1.parsedDisplay
      = some "Error: rate limited") ∧
    (tryBlock sampleHost "advice"
        (FetchResult.resolved ⟨200, Body.json (JSValue.obj
          [("request_url", JSValue.str "https://api.adviceslip.com/advice"),
            ("data", JSValue.obj [])])⟩)
        (showLoading (samplePage "advice" "" ""))
      = Except.error ("Cannot read properties of undefined (reading \x27advice\x27)",
          { showLoading (samplePage "advice" "" "") with
            rawCallDisplay := "```bash\ncurl -X GET \"https://api.adviceslip.com/advice\"\n```"
            rawResponseDisplay := "\x7b\x7d" }) ∧
    (callApi sampleHost
        (answerWith ⟨200, Body.json (JSValue.obj
          [("request_url", JSValue.str "https://api.adviceslip.com/advice"),
            ("data", JSValue.obj [])])⟩)
        (samplePage "advice" "" "")).1.rawResponseDisplay
      = "Error: Cannot read properties of undefined (reading \x27advice\x27)" ∧
    (callApi sampleHost
        (answerWith ⟨200, Body.json (JSValue.obj
          [("request_url", JSValue.str "https://api.adviceslip.com/advice"),
            ("data", JSValue.obj [])])⟩)
        (samplePage "advice" "" "")).1.rawCallDisplay
      = "```bash\ncurl -X GET \"/api/advice\"\n```") :=
  have h := callApi_failure_display sampleHost
    (answerWith ⟨429, Body.json (JSValue.obj [("error", JSValue.str "rate limited")])⟩)
    (samplePage "agify" "Ann Lee" "") "/api/agify?name=Ann+Lee" "rate limited"
    (fun _ => by decide) (fun h => absurd h (by decide)) (by decide)
    (Or.inr (Or.inl ⟨_, rfl, rfl, Or.inl rfl⟩))
  have k := callApi_failure_display sampleHost
    (answerWith ⟨200, Body.json (JSValue.obj
      [("request_url", JSValue.str "https://api.adviceslip.com/advice"),
        ("data", JSValue.obj [])])⟩)
    (samplePage "advice" "" "") "/api/advice"
    "Cannot read properties of undefined (reading \x27advice\x27)"
    (fun h => absurd h (by decide)) (fun h => absurd h (by decide)) (by decide)
    (Or.inr (Or.inr (Or.inr ⟨_, _, _, _, _, rfl, rfl, rfl, rfl, rfl, rfl, rfl⟩)))
  ⟨⟨h.1, h.2.1, h.2.2.1⟩,
   h.2.2.2.2.2.2.2 (by
     unfold plainCharacter
     decide),
   rfl, k.2.1, k.2.2.1⟩

/-- Claim C6 as stated fails.  A status-500 response with an HTML body makes
`response.json()` reject with V8's message `Unexpected token '<', "<!doctype "... is not
valid JSON`, a listed cause.  The markup the `catch` block assigns is parsed as HTML: the
first `<` becomes text, and `<!doctype` swallows the rest up to the `>` of `</span>`.  The
rendered pane therefore holds `<span class="error">Error: Unexpected token '&lt;', "</span>`,
not `<span class="error">Error: m</span>`, and the text it shows is not the message of the
raw-response pane. -/
theorem callApi_failure_markup_reparsed :
    (callApi sampleHost
        (answerWith ⟨500, Body.invalid
          "Unexpected token \x27<\x27, \"<!doctype \"... is not valid JSON"⟩)
        (samplePage "dogs" "" "")).1.parsedDisplay
      = "<span class=\"error\">Error: Unexpected token \x27<\x27, \"<!doctype \"... is not valid JSON</span>" ∧
    innerHTMLAfter (callApi sampleHost
        (answerWith ⟨500, Body.invalid
          "Unexpected token \x27<\x27, \"<!doctype \"... is not valid JSON"⟩)
        (samplePage "dogs" "" "")).1.parsedDisplay
      = some "<span class=\"error\">Error: Unexpected token \x27&lt;\x27, \"</span>" ∧
    innerHTMLAfter (callApi sampleHost
        (answerWith ⟨500, Body.invalid
          "Unexpected token \x27<\x27, \"<!doctype \"... is not valid JSON"⟩)
        (samplePage "dogs" "" "")).1.parsedDisplay
      ≠ some "<span class=\"error\">Error: Unexpected token \x27<\x27, \"<!doctype \"... is not valid JSON</span>" ∧
    textContentAfter (callApi sampleHost
        (answerWith ⟨500, Body.invalid
          "Unexpected token \x27<\x27, \"<!doctype \"... is not valid JSON"⟩)
        (samplePage "dogs" "" "")).1.parsedDisplay
      = some "Error: Unexpected token \x27<\x27, \"" ∧
    (callApi sampleHost
        (answerWith ⟨500, Body.invalid
          "Unexpected token \x27<\x27, \"<!doctype \"... is not valid JSON"⟩)
        (samplePage "dogs" "" "")).1.rawResponseDisplay
      = "Error: Unexpected token \x27<\x27, \"<!doctype \"... is not valid JSON" ∧
    textContentAfter (callApi sampleHost
        (answerWith ⟨500, Body.invalid
          "Unexpected token \x27<\x27, \"<!doctype \"... is not valid JSON"⟩)
        (samplePage "dogs" "" "")).1.parsedDisplay
      ≠ some (callApi sampleHost
        (answerWith ⟨500, Body.invalid
          "Unexpected token \x27<\x27, \"<!doctype \"... is not valid JSON"⟩)
        (samplePage "dogs" "" "")).1.rawResponseDisplay := by
  refine ⟨rfl, rfl, by decide, rfl, rfl, by decide⟩

end Overlord11
